import Mathlib

/-!
Verification of okteto: reverse tunnels (`pkg/ssh/reverse.go`) and image builds
(`pkg/cmd/build/build.go`).

A shallow embedding of

* `ForwardManager.AddReverse` (registration of a reverse tunnel),
* `reverse.start` together with its watcher goroutine, as an interleaving
  transition system,
* `reverse.handle` together with its two `reverse.transfer` goroutines and the
  buffered channel `quit`, as an interleaving transition system,
* `build.Run` and `build.validateImage`.

Go maps are modelled by their lookup function, goroutines by program counters
that a scheduler advances one atomic action at a time.
-/

namespace Okteto

/-! ## Go library functions used by the sources -/

/-- Go map with `int` keys, given by its lookup function (`none`: key absent). -/
def GoMap (V : Type) : Type := Int → Option V

/-- The statement `m[k] = v` on a Go map. -/
def GoMap.set {V : Type} (m : GoMap V) (k : Int) (v : V) : GoMap V :=
  fun j => if j = k then some v else m j

/-- The test `_, ok := m[k]` on a Go map. -/
def GoMap.hasKey {V : Type} (m : GoMap V) (k : Int) : Bool :=
  (m k).isSome

/-- The empty Go map. -/
def GoMap.empty {V : Type} : GoMap V := fun _ => none

/-- Go `strconv.Itoa`: the decimal representation of an `int`. -/
def Itoa (i : Int) : String := toString i

/-- Go `net.JoinHostPort`: `host:port`, with the host in brackets when it
contains a colon (a literal IPv6 address). -/
def JoinHostPort (host port : String) : String :=
  if host.toList.contains ':' then "[" ++ host ++ "]:" ++ port else host ++ ":" ++ port

namespace SSH

/-! ## Data model of `pkg/ssh` -/

/-- Modelled from the spec: the `connectedFlag` of a tunnel (the field
`connected` of `forward`, whose declaration is in `forward.go`), "tri-state:
not-yet-started / connected / disconnected". -/
inductive ConnectedFlag where
  | notStarted
  | connected
  | disconnected
  deriving DecidableEq, Repr

/-- Modelled from the spec: the struct `forward` (declared in `forward.go`), with
the "base fields shared by Forward/Reverse": `localAddress`, `remoteAddress`,
`connectedFlag`; `pool` is the listener pool that `reverse.start` reads
(`none` is the nil pointer). -/
structure forward where
  localAddress : String
  remoteAddress : String
  connectedFlag : ConnectedFlag := ConnectedFlag.notStarted
  pool : Option Nat := none
  deriving DecidableEq, Repr

/-- The struct `reverse` of `reverse.go`: it embeds `forward`. -/
structure reverse where
  toForward : forward
  deriving DecidableEq, Repr

/-- The struct `model.Reverse`: a remote port and a local port. -/
structure Reverse where
  Remote : Int
  Local : Int
  deriving DecidableEq, Repr

/-- Errors returned by the forward manager. -/
inductive ManagerError where
  | conflict (port : Int)
  deriving DecidableEq, Repr

/-- Network operations of the transport session. -/
inductive NetCall where
  | listen (address : String)
  | accept (address : String)
  | dial (address : String)
  deriving DecidableEq, Repr

/-- Modelled from the spec: the struct `ForwardManager` (declared in
`manager.go`): the two bind interfaces and the two registries keyed by local
port. -/
structure ForwardManager where
  localInterface : String
  remoteInterface : String
  forwards : GoMap forward
  reverses : GoMap reverse

/-- Modelled from the spec: `ForwardManager.canAdd` (defined in `manager.go`),
"fails with a conflict error if `local` is already registered by any tunnel
(forward or reverse)". The second argument is the `checkAvailable` flag, which
`AddReverse` passes as `false`. -/
def ForwardManager.canAdd (fm : ForwardManager) (localPort : Int) (_checkAvailable : Bool) :
    Option ManagerError :=
  if fm.reverses.hasKey localPort then some (ManagerError.conflict localPort)
  else if fm.forwards.hasKey localPort then some (ManagerError.conflict localPort)
  else none

/-- Outcome of a manager operation: the returned `error` (`none` is `nil`), the
manager afterwards, and the network operations performed by the call. -/
structure AddResult where
  err : Option ManagerError
  fm : ForwardManager
  netCalls : List NetCall

/-- `ForwardManager.AddReverse` (reverse.go, lines 33-47). -/
def ForwardManager.AddReverse (fm : ForwardManager) (f : Reverse) : AddResult :=
  match fm.canAdd f.Local false with
  | some err => { err := some err, fm := fm, netCalls := [] }
  | none =>
    { err := none
      fm := { fm with
        reverses := fm.reverses.set f.Local
          { toForward :=
              { localAddress := JoinHostPort fm.localInterface (Itoa f.Local)
                remoteAddress := JoinHostPort fm.remoteInterface (Itoa f.Remote) } } }
      netCalls := [] }

/-- A manager with the forward `3000 -> 4000` registered on the loopback
interface. -/
def managerWithForward : ForwardManager :=
  { localInterface := "localhost", remoteInterface := "0.0.0.0",
    forwards := GoMap.empty.set 3000
      { localAddress := "localhost:3000", remoteAddress := "0.0.0.0:4000" },
    reverses := GoMap.empty }

/-! ## `reverse.start` and its watcher goroutine

The accept loop and the watcher are two tasks whose atomic actions a scheduler
interleaves. The cancellation of `ctx` and the results of `getListener` and
`Accept` come from the environment. -/

/-- Program counter of `reverse.start` (line numbers of reverse.go). -/
inductive LoopPc where
  /-- Line 50: `r.pool.getListener(r.remoteAddress)`. -/
  | getListener
  /-- Lines 55-71: register the deferred close, spawn the watcher, create the ticker. -/
  | spawnWatcher
  /-- Line 73: `r.setConnected()`. -/
  | setConnected
  /-- Line 74: `remoteListener.Accept()`, pending until it returns. -/
  | accept
  /-- Line 76: `if !r.connected()`. -/
  | checkConnected
  /-- Line 81: `<-tick.C`. -/
  | waitTick
  /-- Line 85: `go r.handle(ctx, remoteConn)`. -/
  | spawnHandle
  /-- Lines 55-59: the deferred `remoteListener.Close()`, run on return. -/
  | deferredClose
  /-- The call of `start` has returned. -/
  | returned
  deriving DecidableEq, Repr

/-- Program counter of the watcher goroutine (lines 61-69). -/
inductive WatcherPc where
  /-- The goroutine has not been spawned. -/
  | notSpawned
  /-- Line 62: `<-ctx.Done()`. -/
  | waitDone
  /-- Line 63: `r.setDisconnected()`. -/
  | setDisconnected
  /-- Line 64: `remoteListener.Close()`. -/
  | close
  /-- The goroutine has ended. -/
  | finished
  deriving DecidableEq, Repr

/-- State of one run of `reverse.start`. -/
structure StartState where
  loop : LoopPc
  watcher : WatcherPc
  /-- The tunnel's `connectedFlag`. -/
  flag : ConnectedFlag
  /-- Every value written to `connectedFlag`, oldest first. -/
  flagWrites : List ConnectedFlag
  /-- Whether `ctx.Done()` is closed. -/
  cancelled : Bool
  /-- Whether `remoteListener` has been closed. -/
  listenerClosed : Bool
  /-- Number of calls of `remoteListener.Close()`. -/
  closeCalls : Nat
  /-- Number of calls of `remoteListener.Accept()` that have returned. -/
  acceptCalls : Nat
  /-- Period in milliseconds of the ticker `tick`, once it is created (line 71). -/
  ticker : Option Nat
  /-- Number of receives from `tick.C`, each a wait for the next tick. -/
  tickWaits : Nat
  /-- Number of `handle` goroutines spawned. -/
  handlers : Nat
  deriving DecidableEq, Repr

/-- Modelled from the spec: `forward.setConnected` (defined in `forward.go`),
"mark `connectedFlag = true`". -/
def StartState.setConnected (s : StartState) : StartState :=
  { s with flag := ConnectedFlag.connected
           flagWrites := s.flagWrites ++ [ConnectedFlag.connected] }

/-- Modelled from the spec: `forward.setDisconnected` (defined in `forward.go`),
"sets `connectedFlag = false`". -/
def StartState.setDisconnected (s : StartState) : StartState :=
  { s with flag := ConnectedFlag.disconnected
           flagWrites := s.flagWrites ++ [ConnectedFlag.disconnected] }

/-- Modelled from the spec: `forward.connected` (defined in `forward.go`), the
read of `connectedFlag`. -/
def StartState.connected (s : StartState) : Bool :=
  s.flag == ConnectedFlag.connected

/-- The call `remoteListener.Close()`. -/
def StartState.closeListener (s : StartState) : StartState :=
  { s with listenerClosed := true, closeCalls := s.closeCalls + 1 }

/-- What the scheduler or the environment does next. -/
inductive StartEvent where
  /-- The environment cancels `ctx`. -/
  | cancel
  /-- The watcher performs its next action. -/
  | watcher
  /-- The accept loop performs its next action; `ok` is the result of
  `getListener` or `Accept` when the action is one of these calls (`true`: no
  error). -/
  | loop (ok : Bool)
  deriving DecidableEq, Repr

/-- State at the call of `start` on a tunnel whose flag is `flag`. -/
def StartState.init (flag : ConnectedFlag) : StartState :=
  { loop := LoopPc.getListener, watcher := WatcherPc.notSpawned, flag := flag,
    flagWrites := [], cancelled := false, listenerClosed := false, closeCalls := 0,
    acceptCalls := 0, ticker := none, tickWaits := 0, handlers := 0 }

/-- One action of the accept loop of `reverse.start`. -/
def loopStep (s : StartState) (ok : Bool) : StartState :=
  match s.loop with
  | LoopPc.getListener =>
    if ok then { s with loop := LoopPc.spawnWatcher } else { s with loop := LoopPc.returned }
  | LoopPc.spawnWatcher =>
    { s with loop := LoopPc.setConnected, watcher := WatcherPc.waitDone, ticker := some 500 }
  | LoopPc.setConnected => { s.setConnected with loop := LoopPc.accept }
  | LoopPc.accept =>
    if ok then { s with loop := LoopPc.spawnHandle, acceptCalls := s.acceptCalls + 1 }
    else { s with loop := LoopPc.checkConnected, acceptCalls := s.acceptCalls + 1 }
  | LoopPc.checkConnected =>
    if !s.connected then { s with loop := LoopPc.deferredClose }
    else { s with loop := LoopPc.waitTick }
  | LoopPc.waitTick => { s with loop := LoopPc.setConnected, tickWaits := s.tickWaits + 1 }
  | LoopPc.spawnHandle => { s with loop := LoopPc.setConnected, handlers := s.handlers + 1 }
  | LoopPc.deferredClose => { s.closeListener with loop := LoopPc.returned }
  | LoopPc.returned => s

/-- One action of the watcher goroutine; the receive from `ctx.Done()` is
possible only once `ctx` is cancelled. -/
def watcherStep (s : StartState) : StartState :=
  match s.watcher with
  | WatcherPc.notSpawned => s
  | WatcherPc.waitDone =>
    if s.cancelled then { s with watcher := WatcherPc.setDisconnected } else s
  | WatcherPc.setDisconnected => { s.setDisconnected with watcher := WatcherPc.close }
  | WatcherPc.close => { s.closeListener with watcher := WatcherPc.finished }
  | WatcherPc.finished => s

/-- One event of the system; an event that cannot happen leaves the state as it is. -/
def startStep (s : StartState) : StartEvent → StartState
  | StartEvent.cancel => { s with cancelled := true }
  | StartEvent.watcher => watcherStep s
  | StartEvent.loop ok => loopStep s ok

/-- A schedule: the events in the order in which they happen. -/
def startRun (s : StartState) (es : List StartEvent) : StartState :=
  es.foldl startStep s

/-- Whether an event is an action of the accept loop. -/
def StartEvent.isLoop : StartEvent → Bool
  | StartEvent.loop _ => true
  | _ => false

/-- The schedule of one failed `Accept` while connected: the call returns an
error, the flag is read, the ticker is awaited, the flag is set again. -/
def failedAcceptRound : List StartEvent :=
  [StartEvent.loop false, StartEvent.loop true, StartEvent.loop true, StartEvent.loop true]

/-- The schedule of `n` consecutive failed calls of `Accept`. -/
def failedAccepts : Nat → List StartEvent
  | 0 => []
  | n + 1 => failedAcceptRound ++ failedAccepts n

/-- The ticker exists, with its period of 500 ms, from line 71 on. -/
def tickerCreated (s : StartState) : Prop :=
  s.loop = LoopPc.getListener ∨ s.loop = LoopPc.spawnWatcher ∨ s.loop = LoopPc.returned ∨
    s.ticker = some 500

/-- A schedule that brings the accept loop to its first call of `Accept`: the
listener is obtained, the watcher spawned, the flag set. -/
def untilAccept : List StartEvent :=
  [StartEvent.loop true, StartEvent.loop true, StartEvent.loop true]

/-- A schedule in which `ctx` is cancelled after an `Accept` has returned a
connection and before the loop starts its next iteration: the watcher runs to
its end, then the loop spawns the handler and sets the flag again. -/
def cancelBetweenIterations : List StartEvent :=
  untilAccept ++ [StartEvent.loop true, StartEvent.cancel, StartEvent.watcher,
    StartEvent.watcher, StartEvent.watcher, StartEvent.loop true, StartEvent.loop true]

/-- The closes of the listener by a watcher that was waiting when the listener
had been closed `closeCalls` times: one more close exactly when the watcher has
ended. -/
def watcherClosed (closeCalls : Nat) (s : StartState) : Prop :=
  (s.watcher = WatcherPc.finished ∧ s.closeCalls = closeCalls + 1 ∧ s.listenerClosed = true) ∨
    ((s.watcher = WatcherPc.waitDone ∨ s.watcher = WatcherPc.setDisconnected ∨
        s.watcher = WatcherPc.close) ∧ s.closeCalls = closeCalls)

/-- A schedule in which `ctx` is cancelled while the loop is in its first
`Accept`, and the call returns an error before the watcher is scheduled: the loop
reads the flag, waits for the ticker, sets the flag and calls `Accept` again. -/
def cancelThenEarlyError : List StartEvent :=
  untilAccept ++ [StartEvent.cancel, StartEvent.loop false, StartEvent.loop true,
    StartEvent.loop true, StartEvent.loop true, StartEvent.loop false]

/-- The three actions of the watcher after the cancellation of `ctx`. -/
def cancelAndWatch : List StartEvent :=
  [StartEvent.cancel, StartEvent.watcher, StartEvent.watcher, StartEvent.watcher]

/-- The property "once disconnected, never connected again" of a history of flag
writes: no write of `connected` follows a write of `disconnected`. -/
def neverReconnects : List ConnectedFlag → Bool
  | [] => true
  | ConnectedFlag.disconnected :: rest =>
    !rest.contains ConnectedFlag.connected && neverReconnects rest
  | _ :: rest => neverReconnects rest

/-! ## `reverse.handle`, its two `reverse.transfer` goroutines and the channel `quit` -/

/-- The two `transfer` goroutines of one `handle`. -/
inductive TransferId where
  /-- Line 110: `go r.transfer(remote, local, quit)`. -/
  | first
  /-- Line 111: `go r.transfer(local, remote, quit)`. -/
  | second
  deriving DecidableEq, Repr

/-- What `handle` and its goroutines do to the outside, in the order it happens. -/
inductive HandleEffect where
  /-- Line 98: `getConn` returned (`ok = false`: with an error, after its retries). -/
  | dial (ok : Bool)
  /-- Lines 110, 111: a `transfer` goroutine is started. -/
  | spawn (i : TransferId)
  /-- Line 121: the `io.Copy` of a transfer ended (`failed = false`: with EOF). -/
  | copyEnd (i : TransferId) (failed : Bool)
  /-- Line 126: the write `quit <- struct{}{}` of a transfer completed. -/
  | send (i : TransferId)
  /-- Line 113: `<-quit` received a value. -/
  | recv
  /-- Line 105: `local.Close()`. -/
  | closeLocal
  /-- Line 92: `remote.Close()`. -/
  | closeRemote
  deriving DecidableEq, Repr

/-- Program counter of `reverse.handle`. -/
inductive HandlePc where
  /-- Lines 97-98: `make(chan struct{}, 1)` and `getConn`. -/
  | dial
  /-- Line 110. -/
  | spawnFirst
  /-- Line 111. -/
  | spawnSecond
  /-- Line 113: `<-quit`. -/
  | recvQuit
  /-- Lines 104-108: the deferred `local.Close()`. -/
  | closeLocal
  /-- Lines 91-95: the deferred `remote.Close()`. -/
  | closeRemote
  /-- The call of `handle` has returned. -/
  | returned
  deriving DecidableEq, Repr

/-- Program counter of a `reverse.transfer` goroutine. -/
inductive TransferPc where
  /-- The goroutine has not been started. -/
  | notSpawned
  /-- Line 121: `io.Copy(from, to)`. -/
  | copying
  /-- Line 126: `quit <- struct{}{}`. -/
  | send
  /-- The goroutine has ended. -/
  | finished
  deriving DecidableEq, Repr

/-- Capacity of the channel `quit` (line 97). -/
def quitCapacity : Nat := 1

/-- State of one run of `reverse.handle`. -/
structure HandleState where
  handle : HandlePc
  first : TransferPc
  second : TransferPc
  /-- Whether `getConn` returned a connection (`local`), once it has returned. -/
  dialed : Option Bool
  /-- Number of values buffered in `quit`. -/
  quit : Nat
  /-- The tunnel's `connectedFlag`. -/
  flag : ConnectedFlag
  /-- The effects so far, oldest first. -/
  trace : List HandleEffect
  deriving DecidableEq, Repr

/-- State at the call of `handle` on a tunnel whose flag is `flag`. -/
def HandleState.init (flag : ConnectedFlag) : HandleState :=
  { handle := HandlePc.dial, first := TransferPc.notSpawned, second := TransferPc.notSpawned,
    dialed := none, quit := 0, flag := flag, trace := [] }

/-- The program counter of a transfer. -/
def HandleState.transfer (s : HandleState) : TransferId → TransferPc
  | TransferId.first => s.first
  | TransferId.second => s.second

/-- Set the program counter of a transfer. -/
def HandleState.setTransfer (s : HandleState) (i : TransferId) (pc : TransferPc) : HandleState :=
  match i with
  | TransferId.first => { s with first := pc }
  | TransferId.second => { s with second := pc }

/-- Record an effect. -/
def HandleState.emit (s : HandleState) (e : HandleEffect) : HandleState :=
  { s with trace := s.trace ++ [e] }

/-- What the scheduler does next. -/
inductive HandleEvent where
  /-- The task `handle` performs its next action; `ok` is the result of `getConn`
  when the action is that call. -/
  | handle (ok : Bool)
  /-- The transfer `i` performs its next action; `failed` is the result of
  `io.Copy` when the action is the end of the copy. -/
  | transfer (i : TransferId) (failed : Bool)
  deriving DecidableEq, Repr

/-- Whether an event can happen: a receive needs a buffered value, a send needs
room in the buffer, a task that has ended or has not started does nothing. -/
def handleEnabled (s : HandleState) : HandleEvent → Bool
  | HandleEvent.handle _ =>
    match s.handle with
    | HandlePc.recvQuit => decide (0 < s.quit)
    | HandlePc.returned => false
    | _ => true
  | HandleEvent.transfer i _ =>
    match s.transfer i with
    | TransferPc.copying => true
    | TransferPc.send => decide (s.quit < quitCapacity)
    | _ => false

/-- One action of `reverse.handle`. -/
def handleTaskStep (s : HandleState) (ok : Bool) : HandleState :=
  match s.handle with
  | HandlePc.dial =>
    if ok then
      { s.emit (HandleEffect.dial true) with handle := HandlePc.spawnFirst, dialed := some true }
    else
      { s.emit (HandleEffect.dial false) with handle := HandlePc.closeRemote, dialed := some false }
  | HandlePc.spawnFirst =>
    { (s.emit (HandleEffect.spawn TransferId.first)) with
      handle := HandlePc.spawnSecond, first := TransferPc.copying }
  | HandlePc.spawnSecond =>
    { (s.emit (HandleEffect.spawn TransferId.second)) with
      handle := HandlePc.recvQuit, second := TransferPc.copying }
  | HandlePc.recvQuit =>
    { (s.emit HandleEffect.recv) with handle := HandlePc.closeLocal, quit := s.quit - 1 }
  | HandlePc.closeLocal => { (s.emit HandleEffect.closeLocal) with handle := HandlePc.closeRemote }
  | HandlePc.closeRemote => { (s.emit HandleEffect.closeRemote) with handle := HandlePc.returned }
  | HandlePc.returned => s

/-- One action of `reverse.transfer`: the copy ends, with EOF or with an error,
then the completion signal is written. -/
def transferStep (s : HandleState) (i : TransferId) (failed : Bool) : HandleState :=
  match s.transfer i with
  | TransferPc.copying => (s.emit (HandleEffect.copyEnd i failed)).setTransfer i TransferPc.send
  | TransferPc.send =>
    { ((s.emit (HandleEffect.send i)).setTransfer i TransferPc.finished) with quit := s.quit + 1 }
  | _ => s

/-- One event of the system; an event that cannot happen leaves the state as it is. -/
def handleStep (s : HandleState) (e : HandleEvent) : HandleState :=
  if handleEnabled s e then
    match e with
    | HandleEvent.handle ok => handleTaskStep s ok
    | HandleEvent.transfer i failed => transferStep s i failed
  else s

/-- A schedule: the events in the order in which they happen. -/
def handleRun (s : HandleState) (es : List HandleEvent) : HandleState :=
  es.foldl handleStep s

/-- Number of actions each task still has to perform. -/
def HandlePc.remaining : HandlePc → Nat
  | HandlePc.dial => 6
  | HandlePc.spawnFirst => 5
  | HandlePc.spawnSecond => 4
  | HandlePc.recvQuit => 3
  | HandlePc.closeLocal => 2
  | HandlePc.closeRemote => 1
  | HandlePc.returned => 0

/-- Number of actions a transfer still has to perform once started. -/
def TransferPc.remaining : TransferPc → Nat
  | TransferPc.notSpawned => 2
  | TransferPc.copying => 2
  | TransferPc.send => 1
  | TransferPc.finished => 0

/-- Number of actions the system can still perform. -/
def HandleState.remaining (s : HandleState) : Nat :=
  s.handle.remaining + s.first.remaining + s.second.remaining

/-- Whether no occurrence of `b` precedes the first occurrence of `a`. -/
def onlyAfter (a b : HandleEffect) (trace : List HandleEffect) : Bool :=
  !(trace.takeWhile (fun e => e != a)).contains b

/-- No event can happen: every task has ended or is blocked. -/
def handleTerminal (s : HandleState) : Prop :=
  ∀ e : HandleEvent, handleEnabled s e = false

/-- A schedule in which the dial succeeds, the first copy ends with EOF and the
second with an error, and `handle` receives between the two writes. -/
def relaySchedule : List HandleEvent :=
  [HandleEvent.handle true, HandleEvent.handle true, HandleEvent.handle true,
    HandleEvent.transfer TransferId.first false, HandleEvent.transfer TransferId.first false,
    HandleEvent.transfer TransferId.second true, HandleEvent.handle true,
    HandleEvent.transfer TransferId.second true, HandleEvent.handle true,
    HandleEvent.handle true]

/-- A schedule in which the dial fails. -/
def failedDialSchedule : List HandleEvent :=
  [HandleEvent.handle false, HandleEvent.handle true]

/-- Whether `handle`, at this program counter, has received from `quit`. -/
def HandlePc.received (h : HandlePc) (dialed : Option Bool) : Bool :=
  match h, dialed with
  | HandlePc.closeLocal, _ => true
  | HandlePc.closeRemote, some true => true
  | HandlePc.returned, some true => true
  | _, _ => false

/-- Whether `handle`, at this program counter, has closed `local`. -/
def HandlePc.closedLocal (h : HandlePc) (dialed : Option Bool) : Bool :=
  match h, dialed with
  | HandlePc.closeRemote, some true => true
  | HandlePc.returned, some true => true
  | _, _ => false

/-- Whether `handle`, at this program counter, has started the first transfer. -/
def HandlePc.firstSpawned (h : HandlePc) (dialed : Option Bool) : Bool :=
  match h, dialed with
  | HandlePc.spawnSecond, _ => true
  | HandlePc.recvQuit, _ => true
  | HandlePc.closeLocal, _ => true
  | HandlePc.closeRemote, some true => true
  | HandlePc.returned, some true => true
  | _, _ => false

/-- Whether `handle`, at this program counter, has started the second transfer. -/
def HandlePc.secondSpawned (h : HandlePc) (dialed : Option Bool) : Bool :=
  match h, dialed with
  | HandlePc.recvQuit, _ => true
  | HandlePc.closeLocal, _ => true
  | HandlePc.closeRemote, some true => true
  | HandlePc.returned, some true => true
  | _, _ => false

/-- The result of `getConn` that a program counter of `handle` allows. -/
def HandlePc.dialedAs (h : HandlePc) (dialed : Option Bool) : Bool :=
  match h, dialed with
  | HandlePc.dial, none => true
  | HandlePc.spawnFirst, some true => true
  | HandlePc.spawnSecond, some true => true
  | HandlePc.recvQuit, some true => true
  | HandlePc.closeLocal, some true => true
  | HandlePc.closeRemote, some _ => true
  | HandlePc.returned, some _ => true
  | _, _ => false

/-- Whether `handle`, at this program counter, has closed `remote`. -/
def HandlePc.closedRemote : HandlePc → Bool
  | HandlePc.returned => true
  | _ => false

/-- Whether `getConn` has returned a connection. -/
def dialSucceeded : Option Bool → Bool
  | some true => true
  | _ => false

/-- Whether `getConn` has returned an error. -/
def dialFailed : Option Bool → Bool
  | some false => true
  | _ => false

/-- Whether a transfer, at this program counter, has ended its copy. -/
def TransferPc.copied : TransferPc → Bool
  | TransferPc.send => true
  | TransferPc.finished => true
  | _ => false

/-- Whether a transfer, at this program counter, has been started. -/
def TransferPc.spawned : TransferPc → Bool
  | TransferPc.notSpawned => false
  | _ => true

/-- Whether a transfer, at this program counter, has written to `quit`. -/
def TransferPc.sent : TransferPc → Bool
  | TransferPc.finished => true
  | _ => false

/-- The invariant of the system of `handle`: the program counters agree with each
other, the buffer of `quit` holds the writes not yet received, and the trace holds
each effect as often as the program counters say. -/
structure HandleInv (flag : ConnectedFlag) (s : HandleState) : Prop where
  flag_eq : s.flag = flag
  dialed_ok : s.handle.dialedAs s.dialed = true
  first_ok : s.first.spawned = s.handle.firstSpawned s.dialed
  second_ok : s.second.spawned = s.handle.secondSpawned s.dialed
  quit_eq : s.quit + (s.handle.received s.dialed).toNat =
    s.first.sent.toNat + s.second.sent.toNat
  quit_le : s.quit ≤ quitCapacity
  order_local : onlyAfter HandleEffect.recv HandleEffect.closeLocal s.trace = true
  order_remote : dialFailed s.dialed = false →
    onlyAfter HandleEffect.recv HandleEffect.closeRemote s.trace = true
  dial_ok : s.trace.count (HandleEffect.dial true) = (dialSucceeded s.dialed).toNat
  dial_failed : s.trace.count (HandleEffect.dial false) = (dialFailed s.dialed).toNat
  spawn_first : s.trace.count (HandleEffect.spawn TransferId.first) = s.first.spawned.toNat
  spawn_second : s.trace.count (HandleEffect.spawn TransferId.second) = s.second.spawned.toNat
  copy_first : s.trace.count (HandleEffect.copyEnd TransferId.first true) +
    s.trace.count (HandleEffect.copyEnd TransferId.first false) = s.first.copied.toNat
  copy_second : s.trace.count (HandleEffect.copyEnd TransferId.second true) +
    s.trace.count (HandleEffect.copyEnd TransferId.second false) = s.second.copied.toNat
  send_first : s.trace.count (HandleEffect.send TransferId.first) = s.first.sent.toNat
  send_second : s.trace.count (HandleEffect.send TransferId.second) = s.second.sent.toNat
  recv_eq : s.trace.count HandleEffect.recv = (s.handle.received s.dialed).toNat
  closeLocal_eq : s.trace.count HandleEffect.closeLocal = (s.handle.closedLocal s.dialed).toNat
  closeRemote_eq : s.trace.count HandleEffect.closeRemote = s.handle.closedRemote.toNat

end SSH

namespace Build

/-! ## `pkg/cmd/build/build.go` -/

/-- Go `error` values that `build.go` builds or passes on. -/
inductive GoError where
  /-- An error with a message (`fmt.Errorf`, or an error of a called package). -/
  | plain (msg : String)
  /-- The struct `okErrors.UserError` with its fields `E` and `Hint`. -/
  | userError (E : GoError) (Hint : String)
  /-- The result of `errors.Wrap(cause, msg)`. -/
  | wrapped (cause : GoError) (msg : String)
  deriving DecidableEq, Repr

/-- What `Run` does to the outside, in the order it happens (log lines are
left out). -/
inductive Effect where
  /-- An invocation of `solveBuild`; `call` counts the invocations from 0. -/
  | solveBuild (call : Nat)
  /-- The call `analytics.TrackBuildTransientError(buildkit, success)`. -/
  | trackBuildTransientError (buildkit : String) (success : Bool)
  /-- The deferred `os.Remove(dockerFile)`. -/
  | removeFile (path : String)
  deriving DecidableEq, Repr

/-- The functions and constants of other packages and files that `build.go`
uses: they are parameters of the model. `solveBuild` takes the number of the
invocation, as two invocations with the same arguments may end differently. -/
structure Env (Client Opt : Type) where
  getBuildkitClient : Except GoError Client
  GetDockerfile : String → Except GoError String
  IsOktetoRegistry : String → Bool
  IsGlobalRegistry : String → Bool
  DevRegistry : String
  GlobalRegistry : String
  IsOktetoContext : Bool
  ContextBuildkit : String
  ExpandOktetoDevRegistry : String → String
  ExpandOktetoGlobalRegistry : String → String
  getSolveOpt : String → String → String → String → Bool → List String → List String →
    List String → Except GoError Opt
  solveBuild : Nat → Client → Opt → String → Option GoError
  IsTransientError : Option GoError → Bool
  GetErrorMessage : Option GoError → String → Option GoError

/-- Go `strings.Count(s, "/")`. -/
def countSlash (s : String) : Nat := s.toList.count '/'

/-- The function `validateImage` (build.go, lines 88-100); `none` is `nil`. -/
def validateImage {Client Opt : Type} (env : Env Client Opt) (imageTag : String) :
    Option GoError :=
  if env.IsOktetoRegistry imageTag && countSlash imageTag != 1 then
    let registryPrefix :=
      if env.IsGlobalRegistry imageTag then env.GlobalRegistry else env.DevRegistry
    some (GoError.userError
      (GoError.plain ("Can not use '" ++ imageTag ++ "' as the image tag."))
      ("The syntax for using okteto registry is: '" ++ registryPrefix ++ "/image_name'"))
  else none

/-- Result of a call of `Run`: the returned `error` and the effects of the call. -/
structure RunResult where
  err : Option GoError
  effects : List Effect
  deriving DecidableEq, Repr

/-- The arguments of `Run` other than `ctx`. -/
structure RunArgs where
  path : String
  dockerFile : String
  tag : String
  target : String
  noCache : Bool
  cacheFrom : List String
  buildArgs : List String
  secrets : List String
  progress : String
  deriving DecidableEq, Repr

/-- What lines 32-62 of `Run` hand over to the build step. -/
structure Prepared (Client Opt : Type) where
  buildkitClient : Client
  /-- The file of the deferred `os.Remove`, when `dockerFile` was not empty. -/
  deferredRemove : Option String
  /-- The tag after the expansion of lines 51-53. -/
  tag : String
  opt : Opt

/-- The deferred call of line 42, run when `Run` returns. -/
def deferred (file : Option String) : List Effect :=
  match file with
  | some f => [Effect.removeFile f]
  | none => []

/-- Lines 32-62 of `Run`: every step before the build; `Except.error` is an
early return. -/
def prepare {Client Opt : Type} (env : Env Client Opt) (a : RunArgs) :
    Except RunResult (Prepared Client Opt) :=
  match env.getBuildkitClient with
  | Except.error err => Except.error { err := some err, effects := [] }
  | Except.ok buildkitClient =>
    let docker : Except GoError (String × Option String) :=
      if a.dockerFile != "" then
        match env.GetDockerfile a.dockerFile with
        | Except.error err => Except.error err
        | Except.ok f => Except.ok (f, some f)
      else Except.ok (a.dockerFile, none)
    match docker with
    | Except.error err => Except.error { err := some err, effects := [] }
    | Except.ok (dockerFile, removal) =>
      match (if a.tag != "" then validateImage env a.tag else none) with
      | some err => Except.error { err := some err, effects := deferred removal }
      | none =>
        let tag :=
          if env.IsOktetoContext then
            env.ExpandOktetoGlobalRegistry (env.ExpandOktetoDevRegistry a.tag)
          else a.tag
        let cacheFrom :=
          if env.IsOktetoContext then
            a.cacheFrom.map
              (fun c => env.ExpandOktetoGlobalRegistry (env.ExpandOktetoDevRegistry c))
          else a.cacheFrom
        match env.getSolveOpt a.path dockerFile tag a.target a.noCache cacheFrom
            a.buildArgs a.secrets with
        | Except.error err =>
          Except.error
            { err := some (GoError.wrapped err "failed to create build solver")
              effects := deferred removal }
        | Except.ok opt =>
          Except.ok
            { buildkitClient := buildkitClient, deferredRemove := removal, tag := tag, opt := opt }

/-- Lines 64-85 of `Run`: the build step with its single retry. -/
def solve {Client Opt : Type} (env : Env Client Opt) (p : Prepared Client Opt)
    (progress : String) : RunResult :=
  let err := env.solveBuild 0 p.buildkitClient p.opt progress
  if env.IsTransientError err then
    let err2 := env.solveBuild 1 p.buildkitClient p.opt progress
    let success := err2.isNone
    { err := env.GetErrorMessage err2 p.tag
      effects := [Effect.solveBuild 0, Effect.solveBuild 1,
        Effect.trackBuildTransientError env.ContextBuildkit success] }
  else
    { err := env.GetErrorMessage err p.tag, effects := [Effect.solveBuild 0] }

/-- The function `Run` (build.go, lines 31-86). -/
def Run {Client Opt : Type} (env : Env Client Opt) (a : RunArgs) : RunResult :=
  match prepare env a with
  | Except.error r => r
  | Except.ok p =>
    let r := solve env p a.progress
    { r with effects := r.effects ++ deferred p.deferredRemove }

/-- Whether an effect is an invocation of `solveBuild`. -/
def Effect.isSolveBuild : Effect → Bool
  | Effect.solveBuild _ => true
  | _ => false

/-- Number of invocations of `solveBuild` in a call of `Run`. -/
def RunResult.solveBuildCalls (r : RunResult) : Nat :=
  r.effects.countP Effect.isSolveBuild

/-- The number of the last invocation of `solveBuild` among the effects. -/
def lastSolveBuild : List Effect → Option Nat
  | [] => none
  | e :: rest =>
    match lastSolveBuild rest with
    | some k => some k
    | none =>
      match e with
      | Effect.solveBuild k => some k
      | _ => none

/-- Whether `tag` starts with the registry name `registry`. -/
def hasRegistry (registry tag : String) : Bool :=
  registry.toList.isPrefixOf tag.toList

/-- An environment in which the first build fails with a transient error and the
retry succeeds. -/
def retryEnv : Env Unit Unit :=
  { getBuildkitClient := Except.ok ()
    GetDockerfile := fun f => Except.ok f
    IsOktetoRegistry := fun t => hasRegistry "okteto.dev" t || hasRegistry "okteto.global" t
    IsGlobalRegistry := fun t => hasRegistry "okteto.global" t
    DevRegistry := "okteto.dev"
    GlobalRegistry := "okteto.global"
    IsOktetoContext := false
    ContextBuildkit := "tcp://buildkit:1234"
    ExpandOktetoDevRegistry := fun t => t
    ExpandOktetoGlobalRegistry := fun t => t
    getSolveOpt := fun _ _ _ _ _ _ _ _ => Except.ok ()
    solveBuild := fun call _ _ _ =>
      if call = 0 then some (GoError.plain "transport is closing") else none
    IsTransientError := fun err => err == some (GoError.plain "transport is closing")
    GetErrorMessage := fun err _ => err }

/-- The environment `retryEnv` without a buildkit client. -/
def noClientEnv : Env Unit Unit :=
  { retryEnv with getBuildkitClient := Except.error (GoError.plain "buildkit is not available") }

/-- Arguments of `Run` with the given tag and no Dockerfile. -/
def argsWithTag (tag : String) : RunArgs :=
  { path := ".", dockerFile := "", tag := tag, target := "", noCache := false, cacheFrom := [],
    buildArgs := [], secrets := [], progress := "tty" }

/-- The hint of the `UserError` of `validateImage` for the registry `registry`. -/
def registryHint (registry : String) : String :=
  "The syntax for using okteto registry is: '" ++ registry ++ "/image_name'"

end Build

/-! ## Registration of a reverse tunnel -/

namespace SSH

/-- C2: for every manager and every reverse `f` whose local port is a key of
`fm.forwards` or of `fm.reverses`, `AddReverse f` returns the conflict error and
leaves both registries exactly as they were. -/
theorem AddReverse_conflict (fm : ForwardManager) (f : Reverse)
    (h : fm.forwards.hasKey f.Local = true ∨ fm.reverses.hasKey f.Local = true) :
    (fm.AddReverse f).err = some (ManagerError.conflict f.Local) ∧
      (fm.AddReverse f).fm.forwards = fm.forwards ∧
      (fm.AddReverse f).fm.reverses = fm.reverses := by
  unfold ForwardManager.AddReverse ForwardManager.canAdd
  rcases h with h | h
  · by_cases hr : fm.reverses.hasKey f.Local = true
    · simp [hr]
    · simp [hr, h]
  · simp [h]

/-- Witness of C2: the scenario `Forward(Local=3000, Remote=4000)` followed by
`Reverse(Local=3000, Remote=5000)`. -/
theorem AddReverse_conflict_witness :
    (managerWithForward.forwards.hasKey 3000 = true ∨
        managerWithForward.reverses.hasKey 3000 = true) ∧
      (managerWithForward.AddReverse { Remote := 5000, Local := 3000 }).err =
        some (ManagerError.conflict 3000) ∧
      (managerWithForward.AddReverse { Remote := 5000, Local := 3000 }).fm.forwards =
        managerWithForward.forwards ∧
      (managerWithForward.AddReverse { Remote := 5000, Local := 3000 }).fm.reverses =
        managerWithForward.reverses :=
  ⟨Or.inl rfl, AddReverse_conflict managerWithForward { Remote := 5000, Local := 3000 }
    (Or.inl rfl)⟩

/-- C7: when the conflict check passes, `AddReverse f` returns nil, registers
under `f.Local` a reverse tunnel with the two joined addresses and the flag not
set, leaves every other entry of `fm.reverses` and all of `fm.forwards`
unchanged, and performs no network operation. -/
theorem AddReverse_registers (fm : ForwardManager) (f : Reverse)
    (h : fm.canAdd f.Local false = none) :
    (fm.AddReverse f).err = none ∧
      (∃ r : reverse, (fm.AddReverse f).fm.reverses f.Local = some r ∧
        r.toForward.localAddress = JoinHostPort fm.localInterface (Itoa f.Local) ∧
        r.toForward.remoteAddress = JoinHostPort fm.remoteInterface (Itoa f.Remote) ∧
        r.toForward.connectedFlag = ConnectedFlag.notStarted) ∧
      (∀ k : Int, k ≠ f.Local → (fm.AddReverse f).fm.reverses k = fm.reverses k) ∧
      (fm.AddReverse f).fm.forwards = fm.forwards ∧
      (fm.AddReverse f).netCalls = [] := by
  unfold ForwardManager.AddReverse
  rw [h]
  refine ⟨rfl, ⟨_, if_pos rfl, rfl, rfl, rfl⟩, ?_, rfl, rfl⟩
  intro k hk
  simp [GoMap.set, hk]

/-- Witness of C7: `Reverse(Local=8080, Remote=9090)` on a manager that holds the
forward `3000 -> 4000`. -/
theorem AddReverse_registers_witness :
    managerWithForward.canAdd 8080 false = none ∧
      (managerWithForward.AddReverse { Remote := 9090, Local := 8080 }).fm.reverses 8080 =
        some { toForward :=
          { localAddress := "localhost:8080", remoteAddress := "0.0.0.0:9090" } } ∧
      (managerWithForward.AddReverse { Remote := 9090, Local := 8080 }).err = none ∧
      (managerWithForward.AddReverse { Remote := 9090, Local := 8080 }).netCalls = [] :=
  ⟨by decide, by decide,
    (AddReverse_registers managerWithForward { Remote := 9090, Local := 8080 } (by decide)).1,
    (AddReverse_registers managerWithForward { Remote := 9090, Local := 8080 }
      (by decide)).2.2.2.2⟩

end SSH

/-! ## The accept loop and its watcher -/

namespace SSH

theorem startRun_cons (s : StartState) (e : StartEvent) (es : List StartEvent) :
    startRun s (e :: es) = startRun (startStep s e) es := rfl

theorem startRun_append (s : StartState) (es₁ es₂ : List StartEvent) :
    startRun s (es₁ ++ es₂) = startRun (startRun s es₁) es₂ := by
  simp [startRun, List.foldl_append]

/-- The watcher and the environment do not move the accept loop. -/
theorem startStep_of_not_loop (s : StartState) (e : StartEvent) (h : e.isLoop = false) :
    (startStep s e).loop = s.loop ∧ (startStep s e).acceptCalls = s.acceptCalls ∧
      (startStep s e).tickWaits = s.tickWaits ∧ (startStep s e).handlers = s.handlers := by
  cases e with
  | cancel => simp [startStep]
  | watcher =>
    simp only [startStep, watcherStep]
    split <;> try simp [StartState.setDisconnected, StartState.closeListener]
    split <;> simp
  | loop ok => simp [StartEvent.isLoop] at h

/-- The watcher and the environment never write `connected`. -/
theorem startStep_flag_of_not_loop (s : StartState) (e : StartEvent) (h : e.isLoop = false)
    (hf : s.flag = ConnectedFlag.disconnected) :
    (startStep s e).flag = ConnectedFlag.disconnected := by
  cases e with
  | cancel => simpa [startStep] using hf
  | watcher =>
    simp only [startStep, watcherStep]
    split <;> try simp [StartState.setDisconnected, StartState.closeListener, hf]
    split <;> simp [hf]
  | loop ok => simp [StartEvent.isLoop] at h

/-- The watcher writes the flag before it reaches the close of the listener. -/
theorem startStep_watcher_order (s : StartState) (e : StartEvent) (h : e.isLoop = false)
    (hs : s.watcher = WatcherPc.close ∨ s.watcher = WatcherPc.finished →
      s.flag = ConnectedFlag.disconnected) :
    (startStep s e).watcher = WatcherPc.close ∨ (startStep s e).watcher = WatcherPc.finished →
      (startStep s e).flag = ConnectedFlag.disconnected := by
  cases e with
  | cancel => simpa [startStep] using hs
  | watcher =>
    simp only [startStep, watcherStep]
    split
    · next hw => simp [hw]
    · next hw => split <;> simp [hw]
    · next hw => simp [StartState.setDisconnected]
    · next hw => simpa [StartState.closeListener, hw] using hs
    · next hw => simpa [hw] using hs
  | loop ok => simp [StartEvent.isLoop] at h

theorem startRun_of_not_loop (es : List StartEvent) (s : StartState)
    (h : ∀ e ∈ es, StartEvent.isLoop e = false) :
    (startRun s es).loop = s.loop ∧ (startRun s es).acceptCalls = s.acceptCalls ∧
      (startRun s es).tickWaits = s.tickWaits ∧ (startRun s es).handlers = s.handlers := by
  induction es generalizing s with
  | nil => simp [startRun]
  | cons e es ih =>
    have he := startStep_of_not_loop s e (h e (List.mem_cons_self _ _))
    have ht := ih (startStep s e) (fun x hx => h x (List.mem_cons_of_mem _ hx))
    rw [startRun_cons]
    exact ⟨ht.1.trans he.1, ht.2.1.trans he.2.1, ht.2.2.1.trans he.2.2.1,
      ht.2.2.2.trans he.2.2.2⟩

theorem startRun_flag_of_not_loop (es : List StartEvent) (s : StartState)
    (h : ∀ e ∈ es, StartEvent.isLoop e = false) (hf : s.flag = ConnectedFlag.disconnected) :
    (startRun s es).flag = ConnectedFlag.disconnected := by
  induction es generalizing s with
  | nil => simpa [startRun] using hf
  | cons e es ih =>
    rw [startRun_cons]
    exact ih _ (fun x hx => h x (List.mem_cons_of_mem _ hx))
      (startStep_flag_of_not_loop s e (h e (List.mem_cons_self _ _)) hf)

theorem startRun_watcher_order (es : List StartEvent) (s : StartState)
    (h : ∀ e ∈ es, StartEvent.isLoop e = false)
    (hs : s.watcher = WatcherPc.close ∨ s.watcher = WatcherPc.finished →
      s.flag = ConnectedFlag.disconnected) :
    (startRun s es).watcher = WatcherPc.close ∨ (startRun s es).watcher = WatcherPc.finished →
      (startRun s es).flag = ConnectedFlag.disconnected := by
  induction es generalizing s with
  | nil => simpa [startRun] using hs
  | cons e es ih =>
    rw [startRun_cons]
    exact ih _ (fun x hx => h x (List.mem_cons_of_mem _ hx))
      (startStep_watcher_order s e (h e (List.mem_cons_self _ _)) hs)

end SSH

namespace SSH

theorem startStep_tickerCreated (s : StartState) (e : StartEvent) (h : tickerCreated s) :
    tickerCreated (startStep s e) := by
  unfold tickerCreated at *
  cases e with
  | cancel => simpa [startStep] using h
  | watcher =>
    simp only [startStep, watcherStep]
    split <;> try simpa [StartState.setDisconnected, StartState.closeListener] using h
    split <;> simpa using h
  | loop ok =>
    simp only [startStep, loopStep]
    split <;> rename_i hl <;>
      simp_all [StartState.setConnected, StartState.closeListener] <;>
      split <;> simp_all

theorem startRun_tickerCreated (es : List StartEvent) (s : StartState) (h : tickerCreated s) :
    tickerCreated (startRun s es) := by
  induction es generalizing s with
  | nil => simpa [startRun] using h
  | cons e es ih =>
    rw [startRun_cons]
    exact ih _ (startStep_tickerCreated s e h)

/-- One failed `Accept` while the flag reads connected: one wait, back at `Accept`. -/
theorem failedAcceptRound_spec (s : StartState) (hl : s.loop = LoopPc.accept)
    (hf : s.flag = ConnectedFlag.connected) :
    (startRun s failedAcceptRound).loop = LoopPc.accept ∧
      (startRun s failedAcceptRound).flag = ConnectedFlag.connected ∧
      (startRun s failedAcceptRound).tickWaits = s.tickWaits + 1 ∧
      (startRun s failedAcceptRound).acceptCalls = s.acceptCalls + 1 ∧
      (startRun s failedAcceptRound).closeCalls = s.closeCalls ∧
      (startRun s failedAcceptRound).handlers = s.handlers := by
  simp [failedAcceptRound, startRun, startStep, loopStep, hl, hf, StartState.connected,
    StartState.setConnected]

theorem failedAccepts_spec (n : Nat) (s : StartState) (hl : s.loop = LoopPc.accept)
    (hf : s.flag = ConnectedFlag.connected) :
    (startRun s (failedAccepts n)).loop = LoopPc.accept ∧
      (startRun s (failedAccepts n)).flag = ConnectedFlag.connected ∧
      (startRun s (failedAccepts n)).tickWaits = s.tickWaits + n ∧
      (startRun s (failedAccepts n)).acceptCalls = s.acceptCalls + n ∧
      (startRun s (failedAccepts n)).closeCalls = s.closeCalls ∧
      (startRun s (failedAccepts n)).handlers = s.handlers := by
  induction n generalizing s with
  | zero => simp [failedAccepts, startRun, hl, hf]
  | succ n ih =>
    have h1 := failedAcceptRound_spec s hl hf
    have h2 := ih (startRun s failedAcceptRound) h1.1 h1.2.1
    simp only [failedAccepts, startRun_append]
    refine ⟨h2.1, h2.2.1, ?_, ?_, ?_, ?_⟩
    · rw [h2.2.2.1, h1.2.2.1]; omega
    · rw [h2.2.2.2.1, h1.2.2.2.1]; omega
    · rw [h2.2.2.2.2.1, h1.2.2.2.2.1]
    · rw [h2.2.2.2.2.2, h1.2.2.2.2.2]

/-- C1, at the failing schedule: an `Accept` returns a connection, `ctx` is
cancelled and the watcher sets the flag to disconnected and closes the listener,
then the loop starts its next iteration and sets the flag to connected again; the
next `Accept` fails on the closed listener, the flag reads connected, and the
loop waits for the ticker instead of returning. -/
theorem start_reconnects_after_disconnect :
    (startRun (StartState.init ConnectedFlag.notStarted) cancelBetweenIterations).flagWrites =
        [ConnectedFlag.connected, ConnectedFlag.disconnected, ConnectedFlag.connected] ∧
      neverReconnects
        (startRun (StartState.init ConnectedFlag.notStarted)
          cancelBetweenIterations).flagWrites = false ∧
      (startRun (StartState.init ConnectedFlag.notStarted)
          cancelBetweenIterations).listenerClosed = true ∧
      (startRun (StartState.init ConnectedFlag.notStarted)
          (cancelBetweenIterations ++ [StartEvent.loop false, StartEvent.loop true])).loop =
        LoopPc.waitTick := by
  decide

/-- The watcher closes the listener once, as its last action. -/
theorem startStep_watcherClosed (c : Nat) (s : StartState) (e : StartEvent)
    (h : e.isLoop = false) (hs : watcherClosed c s) : watcherClosed c (startStep s e) := by
  unfold watcherClosed at *
  cases e with
  | cancel => simpa [startStep] using hs
  | watcher =>
    simp only [startStep, watcherStep]
    split
    · next hw => simp [hw] at hs
    · next hw => split <;> simpa [hw] using hs
    · next hw => simpa [StartState.setDisconnected, hw] using hs
    · next hw =>
      have hc : s.closeCalls = c := by simpa [hw] using hs
      simp [StartState.closeListener, hc]
    · next hw => simpa [hw] using hs
  | loop ok => simp [StartEvent.isLoop] at h

theorem startRun_watcherClosed (c : Nat) (es : List StartEvent) (s : StartState)
    (h : ∀ e ∈ es, StartEvent.isLoop e = false) (hs : watcherClosed c s) :
    watcherClosed c (startRun s es) := by
  induction es generalizing s with
  | nil => simpa [startRun] using hs
  | cons e es ih =>
    rw [startRun_cons]
    exact ih _ (fun x hx => h x (List.mem_cons_of_mem _ hx))
      (startStep_watcherClosed c s e (h e (List.mem_cons_self _ _)) hs)

/-- A watcher that has ended does nothing more. -/
theorem startRun_finished_of_not_loop (es : List StartEvent) (s : StartState)
    (h : ∀ e ∈ es, StartEvent.isLoop e = false) (hw : s.watcher = WatcherPc.finished) :
    (startRun s es).watcher = WatcherPc.finished ∧
      (startRun s es).closeCalls = s.closeCalls ∧
      (startRun s es).listenerClosed = s.listenerClosed := by
  induction es generalizing s with
  | nil => simp [startRun, hw]
  | cons e es ih =>
    have hstep : (startStep s e).watcher = WatcherPc.finished ∧
        (startStep s e).closeCalls = s.closeCalls ∧
        (startStep s e).listenerClosed = s.listenerClosed := by
      cases e with
      | cancel => simp [startStep, hw]
      | watcher => simp [startStep, watcherStep, hw]
      | loop ok =>
        have := h (StartEvent.loop ok) (List.mem_cons_self _ _)
        simp [StartEvent.isLoop] at this
    have ht := ih (startStep s e) (fun x hx => h x (List.mem_cons_of_mem _ hx)) hstep.1
    rw [startRun_cons]
    exact ⟨ht.1, ht.2.1.trans hstep.2.1, ht.2.2.trans hstep.2.2⟩

/-- C3 as stated fails: `ctx` is cancelled while the loop is in `Accept`, the call
returns an error before the watcher has set the flag, the flag reads connected,
and the loop waits for the ticker and calls `Accept` again. In this schedule the
flag is never set to disconnected. -/
theorem cancel_then_early_error_counterexample :
    (startRun (StartState.init ConnectedFlag.notStarted)
        (untilAccept ++ [StartEvent.cancel])).loop = LoopPc.accept ∧
      (startRun (StartState.init ConnectedFlag.notStarted)
        (untilAccept ++ [StartEvent.cancel])).cancelled = true ∧
      (startRun (StartState.init ConnectedFlag.notStarted) cancelThenEarlyError).tickWaits = 1 ∧
      (startRun (StartState.init ConnectedFlag.notStarted) cancelThenEarlyError).acceptCalls =
        2 ∧
      (startRun (StartState.init ConnectedFlag.notStarted) cancelThenEarlyError).loop ≠
        LoopPc.returned ∧
      (startRun (StartState.init ConnectedFlag.notStarted) cancelThenEarlyError).flagWrites =
        [ConnectedFlag.connected, ConnectedFlag.connected] := by
  decide

/-- C3, amended: let the loop be in `Accept` and the watcher be waiting for the
cancellation, and let the call of `Accept` stay pending while the watcher runs to
its end (`es₁`). Then the watcher has closed the listener exactly once, and
whenever it is about to close it or has closed it the flag is already
disconnected. The error that the pending `Accept` then returns, on the closed
listener, is met with `connected() = false`, and the loop returns, in every
interleaving with the watcher and the environment (`es₂`, `es₃`), with no wait on
the ticker and no further call of `Accept`; the deferred close is the second close
of the listener. -/
theorem cancel_while_blocked_in_accept (s : StartState) (es₁ es₂ es₃ : List StartEvent)
    (ok₁ ok₂ : Bool) (hl : s.loop = LoopPc.accept) (hw : s.watcher = WatcherPc.waitDone)
    (h₁ : ∀ e ∈ es₁, StartEvent.isLoop e = false) (h₂ : ∀ e ∈ es₂, StartEvent.isLoop e = false)
    (h₃ : ∀ e ∈ es₃, StartEvent.isLoop e = false)
    (hclosed : (startRun s es₁).watcher = WatcherPc.finished) :
    (∀ pre suf : List StartEvent, es₁ = pre ++ suf →
        (startRun s pre).watcher = WatcherPc.close →
        (startRun s pre).flag = ConnectedFlag.disconnected) ∧
      (startRun s es₁).loop = LoopPc.accept ∧
      (startRun s es₁).flag = ConnectedFlag.disconnected ∧
      (startRun s (es₁ ++ [StartEvent.loop false] ++ es₂)).connected = false ∧
      (startRun s (es₁ ++ [StartEvent.loop false] ++ es₂ ++ [StartEvent.loop ok₁])).loop =
        LoopPc.deferredClose ∧
      (startRun s (es₁ ++ [StartEvent.loop false] ++ es₂ ++ [StartEvent.loop ok₁] ++ es₃ ++
        [StartEvent.loop ok₂])).loop = LoopPc.returned ∧
      (startRun s (es₁ ++ [StartEvent.loop false] ++ es₂ ++ [StartEvent.loop ok₁] ++ es₃ ++
        [StartEvent.loop ok₂])).tickWaits = s.tickWaits ∧
      (startRun s (es₁ ++ [StartEvent.loop false] ++ es₂ ++ [StartEvent.loop ok₁] ++ es₃ ++
        [StartEvent.loop ok₂])).acceptCalls = s.acceptCalls + 1 ∧
      (∀ pre suf : List StartEvent, es₁ = pre ++ suf →
        (startRun s pre).closeCalls ≠ s.closeCalls →
        (startRun s pre).flag = ConnectedFlag.disconnected ∧
          (startRun s pre).closeCalls = s.closeCalls + 1) ∧
      (startRun s es₁).listenerClosed = true ∧
      (startRun s es₁).closeCalls = s.closeCalls + 1 ∧
      (startRun s (es₁ ++ [StartEvent.loop false] ++ es₂)).listenerClosed = true ∧
      (startRun s (es₁ ++ [StartEvent.loop false] ++ es₂)).closeCalls = s.closeCalls + 1 ∧
      (startRun s (es₁ ++ [StartEvent.loop false] ++ es₂ ++ [StartEvent.loop ok₁] ++ es₃ ++
        [StartEvent.loop ok₂])).closeCalls = s.closeCalls + 2 := by
  have hord : s.watcher = WatcherPc.close ∨ s.watcher = WatcherPc.finished →
      s.flag = ConnectedFlag.disconnected := by simp [hw]
  have hwc : watcherClosed s.closeCalls s := Or.inr ⟨Or.inl hw, rfl⟩
  have hpre : ∀ pre suf : List StartEvent, es₁ = pre ++ suf →
      (startRun s pre).watcher = WatcherPc.close →
      (startRun s pre).flag = ConnectedFlag.disconnected := by
    intro pre suf hsplit hc
    have hp : ∀ e ∈ pre, StartEvent.isLoop e = false := fun e he =>
      h₁ e (by rw [hsplit]; exact List.mem_append_left _ he)
    exact startRun_watcher_order pre s hp hord (Or.inl hc)
  have hpre2 : ∀ pre suf : List StartEvent, es₁ = pre ++ suf →
      (startRun s pre).closeCalls ≠ s.closeCalls →
      (startRun s pre).flag = ConnectedFlag.disconnected ∧
        (startRun s pre).closeCalls = s.closeCalls + 1 := by
    intro pre suf hsplit hc
    have hp : ∀ e ∈ pre, StartEvent.isLoop e = false := fun e he =>
      h₁ e (by rw [hsplit]; exact List.mem_append_left _ he)
    rcases startRun_watcherClosed s.closeCalls pre s hp hwc with hfin | hnot
    · exact ⟨startRun_watcher_order pre s hp hord (Or.inr hfin.1), hfin.2.1⟩
    · exact absurd hnot.2 hc
  have a1 := startRun_of_not_loop es₁ s h₁
  have f1 : (startRun s es₁).flag = ConnectedFlag.disconnected :=
    startRun_watcher_order es₁ s h₁ hord (Or.inr hclosed)
  have k1 : (startRun s es₁).closeCalls = s.closeCalls + 1 ∧
      (startRun s es₁).listenerClosed = true := by
    rcases startRun_watcherClosed s.closeCalls es₁ s h₁ hwc with hfin | hnot
    · exact ⟨hfin.2.1, hfin.2.2⟩
    · rw [hclosed] at hnot
      simp at hnot
  -- the pending `Accept` returns its error
  have l2 : (startStep (startRun s es₁) (StartEvent.loop false)).loop = LoopPc.checkConnected := by
    simp [startStep, loopStep, a1.1, hl]
  have f2 : (startStep (startRun s es₁) (StartEvent.loop false)).flag =
      ConnectedFlag.disconnected := by
    simp [startStep, loopStep, a1.1, hl, f1]
  have c2 : (startStep (startRun s es₁) (StartEvent.loop false)).acceptCalls =
      s.acceptCalls + 1 := by
    simp [startStep, loopStep, a1.1, hl, a1.2.1]
  have t2 : (startStep (startRun s es₁) (StartEvent.loop false)).tickWaits = s.tickWaits := by
    simp [startStep, loopStep, a1.1, hl, a1.2.2.1]
  have w2 : (startStep (startRun s es₁) (StartEvent.loop false)).watcher =
      WatcherPc.finished := by
    simp [startStep, loopStep, a1.1, hl, hclosed]
  have k2 : (startStep (startRun s es₁) (StartEvent.loop false)).closeCalls =
      s.closeCalls + 1 := by
    simp [startStep, loopStep, a1.1, hl, k1.1]
  have b2 : (startStep (startRun s es₁) (StartEvent.loop false)).listenerClosed = true := by
    simp [startStep, loopStep, a1.1, hl, k1.2]
  have a3 := startRun_of_not_loop es₂ (startStep (startRun s es₁) (StartEvent.loop false)) h₂
  have f3 := startRun_flag_of_not_loop es₂
    (startStep (startRun s es₁) (StartEvent.loop false)) h₂ f2
  have g3 := startRun_finished_of_not_loop es₂
    (startStep (startRun s es₁) (StartEvent.loop false)) h₂ w2
  generalize hs3 : startRun (startStep (startRun s es₁) (StartEvent.loop false)) es₂ = s₃
    at a3 f3 g3
  have l3 : s₃.loop = LoopPc.checkConnected := a3.1.trans l2
  have c3 : s₃.acceptCalls = s.acceptCalls + 1 := a3.2.1.trans c2
  have t3 : s₃.tickWaits = s.tickWaits := a3.2.2.1.trans t2
  have k3 : s₃.closeCalls = s.closeCalls + 1 := g3.2.1.trans k2
  have b3 : s₃.listenerClosed = true := g3.2.2.trans b2
  -- the flag is read
  have l4 : (startStep s₃ (StartEvent.loop ok₁)).loop = LoopPc.deferredClose := by
    simp [startStep, loopStep, l3, StartState.connected, f3]
  have c4 : (startStep s₃ (StartEvent.loop ok₁)).acceptCalls = s.acceptCalls + 1 := by
    simp [startStep, loopStep, l3, StartState.connected, f3, c3]
  have t4 : (startStep s₃ (StartEvent.loop ok₁)).tickWaits = s.tickWaits := by
    simp [startStep, loopStep, l3, StartState.connected, f3, t3]
  have w4 : (startStep s₃ (StartEvent.loop ok₁)).watcher = WatcherPc.finished := by
    simp [startStep, loopStep, l3, StartState.connected, f3, g3.1]
  have k4 : (startStep s₃ (StartEvent.loop ok₁)).closeCalls = s.closeCalls + 1 := by
    simp [startStep, loopStep, l3, StartState.connected, f3, k3]
  have a5 := startRun_of_not_loop es₃ (startStep s₃ (StartEvent.loop ok₁)) h₃
  have g5 := startRun_finished_of_not_loop es₃ (startStep s₃ (StartEvent.loop ok₁)) h₃ w4
  generalize hs5 : startRun (startStep s₃ (StartEvent.loop ok₁)) es₃ = s₅ at a5 g5
  have l5 : s₅.loop = LoopPc.deferredClose := a5.1.trans l4
  have c5 : s₅.acceptCalls = s.acceptCalls + 1 := a5.2.1.trans c4
  have t5 : s₅.tickWaits = s.tickWaits := a5.2.2.1.trans t4
  have k5 : s₅.closeCalls = s.closeCalls + 1 := g5.2.1.trans k4
  have e3 : startRun s (es₁ ++ [StartEvent.loop false] ++ es₂) = s₃ := by
    rw [startRun_append, startRun_append, ← hs3]; rfl
  have e4 : startRun s (es₁ ++ [StartEvent.loop false] ++ es₂ ++ [StartEvent.loop ok₁]) =
      startStep s₃ (StartEvent.loop ok₁) := by
    rw [startRun_append, e3]; rfl
  have e6 : startRun s (es₁ ++ [StartEvent.loop false] ++ es₂ ++ [StartEvent.loop ok₁] ++ es₃ ++
      [StartEvent.loop ok₂]) = startStep s₅ (StartEvent.loop ok₂) := by
    rw [startRun_append, startRun_append, e4, hs5]; rfl
  refine ⟨hpre, a1.1.trans hl, f1, ?_, ?_, ?_, ?_, ?_, hpre2, k1.2, k1.1, ?_, ?_, ?_⟩
  · rw [e3]; simp [StartState.connected, f3]
  · rw [e4]; exact l4
  · rw [e6]; simp [startStep, loopStep, l5, StartState.closeListener]
  · rw [e6]; simp [startStep, loopStep, l5, StartState.closeListener, t5]
  · rw [e6]; simp [startStep, loopStep, l5, StartState.closeListener, c5]
  · rw [e3]; exact b3
  · rw [e3]; exact k3
  · rw [e6]; simp [startStep, loopStep, l5, StartState.closeListener, k5]

/-- Witness of C3: the loop is at its first `Accept` when `ctx` is cancelled and
the watcher runs to its end. -/
theorem cancel_while_blocked_in_accept_witness :
    (startRun (startRun (StartState.init ConnectedFlag.notStarted) untilAccept)
        cancelAndWatch).watcher = WatcherPc.finished ∧
      (startRun (startRun (StartState.init ConnectedFlag.notStarted) untilAccept)
        (cancelAndWatch ++ [StartEvent.loop false] ++ [] ++ [StartEvent.loop true] ++ [] ++
          [StartEvent.loop true])).loop = LoopPc.returned ∧
      (startRun (startRun (StartState.init ConnectedFlag.notStarted) untilAccept)
        (cancelAndWatch ++ [StartEvent.loop false] ++ [] ++ [StartEvent.loop true] ++ [] ++
          [StartEvent.loop true])).tickWaits = 0 ∧
      (startRun (startRun (StartState.init ConnectedFlag.notStarted) untilAccept)
        cancelAndWatch).closeCalls = 0 + 1 :=
  ⟨by decide,
    (cancel_while_blocked_in_accept
      (startRun (StartState.init ConnectedFlag.notStarted) untilAccept) cancelAndWatch [] []
      true true (by decide) (by decide) (by decide) (by simp) (by simp) (by decide)).2.2.2.2.2.1,
    (cancel_while_blocked_in_accept
      (startRun (StartState.init ConnectedFlag.notStarted) untilAccept) cancelAndWatch [] []
      true true (by decide) (by decide) (by decide) (by simp) (by simp)
      (by decide)).2.2.2.2.2.2.1,
    (cancel_while_blocked_in_accept
      (startRun (StartState.init ConnectedFlag.notStarted) untilAccept) cancelAndWatch [] []
      true true (by decide) (by decide) (by decide) (by simp) (by simp)
      (by decide)).2.2.2.2.2.2.2.2.2.2.1⟩

end SSH

namespace SSH

/-- C6: let `s` be a state of a run of `start` in which `Accept` has just
returned an error. Then `start` returns exactly when the flag reads not connected
at the check. When it reads connected, the loop receives once from the ticker,
whose period is 500 ms, and is back at `Accept`; after `n` further consecutive
accept errors it has waited `n` more times and is still at `Accept`, with no
close of the listener and no return. -/
theorem accept_error_retries (flag : ConnectedFlag) (es : List StartEvent) (ok₁ ok₂ ok₃ : Bool)
    (n : Nat) (hl : (startRun (StartState.init flag) es).loop = LoopPc.checkConnected) :
    ((startRun (startRun (StartState.init flag) es)
          [StartEvent.loop ok₁, StartEvent.loop ok₂]).loop = LoopPc.returned ↔
        (startRun (StartState.init flag) es).connected = false) ∧
      ((startRun (StartState.init flag) es).connected = true →
        (startStep (startRun (StartState.init flag) es) (StartEvent.loop ok₁)).loop =
          LoopPc.waitTick ∧
        (startStep (startRun (StartState.init flag) es) (StartEvent.loop ok₁)).ticker =
          some 500 ∧
        (startRun (startRun (StartState.init flag) es)
          ([StartEvent.loop ok₁, StartEvent.loop ok₂, StartEvent.loop ok₃] ++
            failedAccepts n)).loop = LoopPc.accept ∧
        (startRun (startRun (StartState.init flag) es)
          ([StartEvent.loop ok₁, StartEvent.loop ok₂, StartEvent.loop ok₃] ++
            failedAccepts n)).tickWaits =
          (startRun (StartState.init flag) es).tickWaits + 1 + n ∧
        (startRun (startRun (StartState.init flag) es)
          ([StartEvent.loop ok₁, StartEvent.loop ok₂, StartEvent.loop ok₃] ++
            failedAccepts n)).acceptCalls =
          (startRun (StartState.init flag) es).acceptCalls + n ∧
        (startRun (startRun (StartState.init flag) es)
          ([StartEvent.loop ok₁, StartEvent.loop ok₂, StartEvent.loop ok₃] ++
            failedAccepts n)).closeCalls =
          (startRun (StartState.init flag) es).closeCalls) := by
  have htick := startRun_tickerCreated es (StartState.init flag)
    (Or.inl (by simp [StartState.init]))
  generalize startRun (StartState.init flag) es = s at hl htick
  refine ⟨?_, ?_⟩
  · cases hc : s.connected <;>
      simp [startRun, startStep, loopStep, hl, hc, StartState.closeListener]
  · intro hc
    have hk : s.ticker = some 500 := by
      unfold tickerCreated at htick
      rw [hl] at htick
      simpa using htick
    have h3l : (startRun s [StartEvent.loop ok₁, StartEvent.loop ok₂,
        StartEvent.loop ok₃]).loop = LoopPc.accept := by
      simp [startRun, startStep, loopStep, hl, hc, StartState.setConnected]
    have h3f : (startRun s [StartEvent.loop ok₁, StartEvent.loop ok₂,
        StartEvent.loop ok₃]).flag = ConnectedFlag.connected := by
      simp [startRun, startStep, loopStep, hl, hc, StartState.setConnected]
    have h3t : (startRun s [StartEvent.loop ok₁, StartEvent.loop ok₂,
        StartEvent.loop ok₃]).tickWaits = s.tickWaits + 1 := by
      simp [startRun, startStep, loopStep, hl, hc, StartState.setConnected]
    have h3a : (startRun s [StartEvent.loop ok₁, StartEvent.loop ok₂,
        StartEvent.loop ok₃]).acceptCalls = s.acceptCalls := by
      simp [startRun, startStep, loopStep, hl, hc, StartState.setConnected]
    have h3c : (startRun s [StartEvent.loop ok₁, StartEvent.loop ok₂,
        StartEvent.loop ok₃]).closeCalls = s.closeCalls := by
      simp [startRun, startStep, loopStep, hl, hc, StartState.setConnected]
    have h := failedAccepts_spec n _ h3l h3f
    rw [startRun_append]
    refine ⟨?_, ?_, h.1, ?_, ?_, ?_⟩
    · simp [startStep, loopStep, hl, hc]
    · simp [startStep, loopStep, hl, hc, hk]
    · rw [h.2.2.1, h3t]
    · rw [h.2.2.2.1, h3a]
    · rw [h.2.2.2.2.1, h3c]

/-- Witness of C6: the first `Accept` of a started tunnel fails, and so do the
next three. -/
theorem accept_error_retries_witness :
    (startRun (StartState.init ConnectedFlag.notStarted)
        (untilAccept ++ [StartEvent.loop false])).loop = LoopPc.checkConnected ∧
      (startRun (StartState.init ConnectedFlag.notStarted)
        (untilAccept ++ [StartEvent.loop false])).connected = true ∧
      (startRun (startRun (StartState.init ConnectedFlag.notStarted)
          (untilAccept ++ [StartEvent.loop false]))
        ([StartEvent.loop true, StartEvent.loop true, StartEvent.loop true] ++
          failedAccepts 3)).loop = LoopPc.accept ∧
      (startRun (startRun (StartState.init ConnectedFlag.notStarted)
          (untilAccept ++ [StartEvent.loop false]))
        ([StartEvent.loop true, StartEvent.loop true, StartEvent.loop true] ++
          failedAccepts 3)).tickWaits = 0 + 1 + 3 :=
  ⟨by decide, by decide,
    ((accept_error_retries ConnectedFlag.notStarted (untilAccept ++ [StartEvent.loop false])
      true true true 3 (by decide)).2 (by decide)).2.2.1,
    ((accept_error_retries ConnectedFlag.notStarted (untilAccept ++ [StartEvent.loop false])
      true true true 3 (by decide)).2 (by decide)).2.2.2.1⟩

end SSH

/-! ## The per-connection handler and its relay -/

namespace SSH

theorem handleRun_cons (s : HandleState) (e : HandleEvent) (es : List HandleEvent) :
    handleRun s (e :: es) = handleRun (handleStep s e) es := rfl

theorem handleRun_append (s : HandleState) (es₁ es₂ : List HandleEvent) :
    handleRun s (es₁ ++ es₂) = handleRun (handleRun s es₁) es₂ := by
  simp [handleRun, List.foldl_append]

/-- Appending an effect keeps the order when the effect is not `b` or `a` has occurred. -/
theorem onlyAfter_append (a b e : HandleEffect) (tr : List HandleEffect)
    (h : onlyAfter a b tr = true) (he : a ∈ tr ∨ e ≠ b) : onlyAfter a b (tr ++ [e]) = true := by
  induction tr with
  | nil =>
    rcases he with he | he
    · simp at he
    · by_cases hea : e = a
      · simp [onlyAfter, List.takeWhile, hea]
      · have hx : (e != a) = true := by simpa using hea
        have hb : ¬ b = e := fun hb => he hb.symm
        simp [onlyAfter, List.takeWhile, hx, hb]
  | cons x tr ih =>
    by_cases hxa : x = a
    · simp [onlyAfter, List.takeWhile, hxa]
    · have hx : (x != a) = true := by simpa using hxa
      simp only [onlyAfter, List.cons_append, List.takeWhile, hx, List.contains_cons,
        Bool.not_eq_true', Bool.or_eq_false_iff, Bool.not_or, Bool.and_eq_true] at h ⊢
      refine ⟨h.1, ?_⟩
      have := ih (by simpa [onlyAfter] using h.2) (by
        rcases he with he | he
        · left
          rcases List.mem_cons.1 he with h1 | h1
          · exact absurd h1.symm hxa
          · exact h1
        · right; exact he)
      simpa [onlyAfter] using this

theorem TransferPc.eq_of_spawned_false {p : TransferPc} (h : p.spawned = false) :
    p = TransferPc.notSpawned := by
  cases p <;> simp [TransferPc.spawned] at h ⊢

theorem mem_of_count_eq_one {a : HandleEffect} {tr : List HandleEffect}
    (h : tr.count a = 1) : a ∈ tr :=
  List.count_pos_iff.1 (by omega)

theorem HandleInv.step_handle {flag : ConnectedFlag} {s : HandleState} (h : HandleInv flag s)
    (ok : Bool) (hen : handleEnabled s (HandleEvent.handle ok) = true) :
    HandleInv flag (handleTaskStep s ok) := by
  obtain ⟨hp, fp, sp, d, q, fl, tr⟩ := s
  obtain ⟨h1, h2, h3, h4, h5, hq, ho1, ho2, h6, h7, h8, h9, h10, h11, h12, h13, h14, h15,
    h16⟩ := h
  simp only at h1 h2 h3 h4 h5 hq ho1 ho2 h6 h7 h8 h9 h10 h11 h12 h13 h14 h15 h16
  rcases d with _ | _ | _ <;> cases hp <;>
    first
    | exact absurd h2 (by decide)
    | skip
  all_goals cases ok
  all_goals
    simp only [HandlePc.firstSpawned, HandlePc.secondSpawned, HandlePc.received,
      HandlePc.closedLocal, HandlePc.closedRemote, dialSucceeded, dialFailed, Bool.toNat_true,
      Bool.toNat_false, handleEnabled, decide_eq_true_eq, forall_const, quitCapacity]
      at h3 h4 h5 hq ho2 h6 h7 h14 h15 h16 hen
  all_goals try (have hf := TransferPc.eq_of_spawned_false h3; subst hf)
  all_goals try (have hf := TransferPc.eq_of_spawned_false h4; subst hf)
  all_goals
    simp only [TransferPc.spawned, TransferPc.sent, TransferPc.copied, Bool.toNat_true,
      Bool.toNat_false] at h5 h8 h9 h10 h11 h12 h13
  all_goals
    constructor <;>
    simp only [handleTaskStep, HandleState.emit, HandlePc.dialedAs,
      HandlePc.firstSpawned, HandlePc.secondSpawned, HandlePc.received,
      HandlePc.closedLocal, TransferPc.spawned, TransferPc.sent, TransferPc.copied,
      HandlePc.closedRemote, dialSucceeded, dialFailed, List.count_append,
      List.count_singleton, Bool.toNat_true, Bool.toNat_false, if_true, if_false,
      Bool.false_eq_true, reduceCtorEq, beq_iff_eq, ite_true, ite_false, reduceIte,
      quitCapacity, forall_const, false_implies, implies_true] <;>
    first
    | assumption
    | omega
    | (refine onlyAfter_append _ _ _ _ ?_ ?_ <;>
        first
        | assumption
        | (right; decide)
        | (left; exact mem_of_count_eq_one h14))

theorem HandleInv.step_transfer {flag : ConnectedFlag} {s : HandleState} (h : HandleInv flag s)
    (i : TransferId) (failed : Bool)
    (hen : handleEnabled s (HandleEvent.transfer i failed) = true) :
    HandleInv flag (transferStep s i failed) := by
  obtain ⟨hp, fp, sp, d, q, fl, tr⟩ := s
  obtain ⟨h1, h2, h3, h4, h5, hq, ho1, ho2, h6, h7, h8, h9, h10, h11, h12, h13, h14, h15,
    h16⟩ := h
  simp only at h1 h2 h3 h4 h5 hq ho1 ho2 h6 h7 h8 h9 h10 h11 h12 h13 h14 h15 h16
  have key : ∀ p : TransferPc, p = (match i with
      | TransferId.first => fp
      | TransferId.second => sp) → HandleInv flag (transferStep
        { handle := hp, first := fp, second := sp, dialed := d, quit := q, flag := fl,
          trace := tr } i failed) := by
    intro p hpdef
    cases i <;> cases failed <;> cases p <;> simp only at hpdef <;> subst hpdef <;>
      simp only [handleEnabled, HandleState.transfer, Bool.false_eq_true, decide_eq_true_eq,
        quitCapacity] at hen hq <;>
      simp only [TransferPc.spawned, TransferPc.sent, TransferPc.copied, Bool.toNat_true,
        Bool.toNat_false] at h3 h4 h5 h8 h9 h10 h11 h12 h13 <;>
      constructor <;>
      simp only [transferStep, HandleState.transfer, HandleState.setTransfer, HandleState.emit,
        TransferPc.spawned, TransferPc.sent, TransferPc.copied, List.count_append,
        List.count_singleton, Bool.toNat_true, Bool.toNat_false, if_true, if_false,
        Bool.false_eq_true, reduceCtorEq, beq_iff_eq, ite_true, ite_false, reduceIte,
        HandleEffect.copyEnd.injEq, HandleEffect.send.injEq, and_false, false_and, and_self,
        quitCapacity] <;>
      first
      | assumption
      | omega
      | (refine onlyAfter_append _ _ _ _ ?_ ?_ <;> first | assumption | (right; decide))
      | (intro hd; refine onlyAfter_append _ _ _ _ (ho2 hd) ?_; right; decide)
  exact key _ rfl

theorem HandleInv.init (flag : ConnectedFlag) : HandleInv flag (HandleState.init flag) := by
  constructor <;> simp [HandleState.init, HandlePc.dialedAs, HandlePc.firstSpawned,
    HandlePc.secondSpawned, HandlePc.received, HandlePc.closedLocal, TransferPc.spawned,
    TransferPc.sent, TransferPc.copied, HandlePc.closedRemote, dialSucceeded, dialFailed,
    quitCapacity, onlyAfter]

theorem HandleInv.step {flag : ConnectedFlag} {s : HandleState} (h : HandleInv flag s)
    (e : HandleEvent) : HandleInv flag (handleStep s e) := by
  unfold handleStep
  split
  · rename_i hen
    cases e with
    | handle ok => exact h.step_handle ok hen
    | transfer i failed => exact h.step_transfer i failed hen
  · exact h

/-- The invariant holds in every state of every run of `handle`. -/
theorem HandleInv.run (flag : ConnectedFlag) (es : List HandleEvent) :
    HandleInv flag (handleRun (HandleState.init flag) es) := by
  have key : ∀ (es : List HandleEvent) (s : HandleState), HandleInv flag s →
      HandleInv flag (handleRun s es) := by
    intro es
    induction es with
    | nil => intro s h; exact h
    | cons e es ih => intro s h; exact ih _ (h.step e)
  exact key es _ (HandleInv.init flag)

theorem HandleInv.dialed_of_mem {flag : ConnectedFlag} {s : HandleState} (h : HandleInv flag s)
    (ok : Bool) (hm : HandleEffect.dial ok ∈ s.trace) : s.dialed = some ok := by
  have hc := List.count_pos_iff.2 hm
  have h6 := h.dial_ok
  have h7 := h.dial_failed
  cases ok <;> rcases hd : s.dialed with _ | _ | _ <;> rw [hd] at h6 h7 <;>
    simp only [dialFailed, dialSucceeded, Bool.toNat_true, Bool.toNat_false] at h6 h7 <;>
    first
    | rfl
    | omega

theorem HandleInv.terminal {flag : ConnectedFlag} {s : HandleState} (h : HandleInv flag s)
    (ht : handleTerminal s) :
    s.handle = HandlePc.returned ∧
      (dialSucceeded s.dialed = true →
        s.first = TransferPc.finished ∧ s.second = TransferPc.finished) := by
  have e1 := ht (HandleEvent.handle true)
  have e2 := ht (HandleEvent.transfer TransferId.first true)
  have e3 := ht (HandleEvent.transfer TransferId.second true)
  obtain ⟨hp, fp, sp, d, q, fl, tr⟩ := s
  have h2 := h.dialed_ok
  have h3 := h.first_ok
  have h4 := h.second_ok
  have h5 := h.quit_eq
  have hq := h.quit_le
  clear h ht
  simp only at h2 h3 h4 h5 hq
  rcases d with _ | _ | _ <;> cases hp <;>
    first
    | exact absurd h2 (by decide)
    | skip
  all_goals cases fp <;>
    first
    | exact absurd h3 (by decide)
    | skip
  all_goals cases sp <;>
    first
    | exact absurd h4 (by decide)
    | skip
  all_goals
    simp only [handleEnabled, HandleState.transfer, quitCapacity, decide_eq_false_iff_not,
      HandlePc.received, TransferPc.sent, Bool.toNat_true, Bool.toNat_false, reduceCtorEq,
      dialSucceeded, Bool.false_eq_true, false_implies, and_self, true_and, and_true,
      forall_const, not_lt, Bool.true_eq_false] at e1 e2 e3 h5 hq ⊢
  all_goals omega

theorem HandleInv.remaining_lt {flag : ConnectedFlag} {s : HandleState} (h : HandleInv flag s)
    (e : HandleEvent) (hen : handleEnabled s e = true) :
    (handleStep s e).remaining < s.remaining := by
  obtain ⟨hp, fp, sp, d, q, fl, tr⟩ := s
  have h2 := h.dialed_ok
  have h3 := h.first_ok
  have h4 := h.second_ok
  clear h
  simp only at h2 h3 h4
  unfold handleStep
  rw [if_pos hen]
  cases e with
  | handle ok =>
    rcases d with _ | _ | _ <;> cases hp <;>
      first
      | exact absurd h2 (by decide)
      | skip
    all_goals cases ok
    all_goals
      simp only [HandlePc.firstSpawned, HandlePc.secondSpawned, handleEnabled,
        Bool.false_eq_true] at h3 h4 hen
    all_goals try (have hf := TransferPc.eq_of_spawned_false h3; subst hf)
    all_goals try (have hf := TransferPc.eq_of_spawned_false h4; subst hf)
    all_goals
      simp only [handleTaskStep, HandleState.emit, HandleState.remaining, HandlePc.remaining,
        TransferPc.remaining, reduceIte, Bool.false_eq_true]
    all_goals omega
  | transfer i failed =>
    cases i
    · cases fp <;>
        simp only [handleEnabled, HandleState.transfer, Bool.false_eq_true] at hen <;>
        simp only [transferStep, HandleState.transfer, HandleState.setTransfer,
          HandleState.emit, HandleState.remaining, TransferPc.remaining] <;>
        omega
    · cases sp <;>
        simp only [handleEnabled, HandleState.transfer, Bool.false_eq_true] at hen <;>
        simp only [transferStep, HandleState.transfer, HandleState.setTransfer,
          HandleState.emit, HandleState.remaining, TransferPc.remaining] <;>
        omega

/-- A transfer that cannot write finds `handle` at its receive, which can happen
and makes room for the write. -/
theorem HandleInv.blocked {flag : ConnectedFlag} {s : HandleState} (h : HandleInv flag s)
    (i : TransferId) (failed ok : Bool) (hs : s.transfer i = TransferPc.send)
    (hb : handleEnabled s (HandleEvent.transfer i failed) = false) :
    s.handle = HandlePc.recvQuit ∧ handleEnabled s (HandleEvent.handle ok) = true ∧
      (handleStep s (HandleEvent.handle ok)).transfer i = TransferPc.send ∧
      handleEnabled (handleStep s (HandleEvent.handle ok)) (HandleEvent.transfer i failed) =
        true := by
  obtain ⟨hp, fp, sp, d, q, fl, tr⟩ := s
  have h2 := h.dialed_ok
  have h3 := h.first_ok
  have h4 := h.second_ok
  have h5 := h.quit_eq
  have hq := h.quit_le
  clear h
  simp only at h2 h3 h4 h5 hq
  have hq1 : q = 1 := by
    cases i <;> simp only [HandleState.transfer] at hs <;> subst hs <;>
      simp only [handleEnabled, HandleState.transfer, quitCapacity, decide_eq_false_iff_not,
        not_lt] at hb hq <;>
      omega
  subst hq1
  clear hb hq
  rcases d with _ | _ | _ <;> cases hp <;>
    first
    | exact absurd h2 (by decide)
    | skip
  all_goals
    cases i <;> cases fp <;> cases sp <;> simp only [HandleState.transfer] at hs <;>
    first
    | exact absurd hs (by decide)
    | exact absurd h3 (by decide)
    | exact absurd h4 (by decide)
    | (exfalso
       simp only [HandlePc.received, TransferPc.sent, Bool.toNat_true, Bool.toNat_false] at h5
       omega)
    | simp [handleStep, handleEnabled, handleTaskStep, HandleState.emit, HandleState.transfer,
        quitCapacity]

/-- C4: in every execution of `handle` that returns, `remote` is closed exactly
once; when the dial succeeded, `local` is closed exactly once, the signal is
received exactly once, and neither close precedes the receive; when the dial
failed, no transfer is started, `local` is never closed, and the flag of the
tunnel is as it was at the call. -/
theorem handle_closes_each_connection_once (flag : ConnectedFlag) (es : List HandleEvent)
    (hret : (handleRun (HandleState.init flag) es).handle = HandlePc.returned) :
    (handleRun (HandleState.init flag) es).trace.count HandleEffect.closeRemote = 1 ∧
      (handleRun (HandleState.init flag) es).flag = flag ∧
      (HandleEffect.dial true ∈ (handleRun (HandleState.init flag) es).trace →
        (handleRun (HandleState.init flag) es).trace.count HandleEffect.closeLocal = 1 ∧
        (handleRun (HandleState.init flag) es).trace.count HandleEffect.recv = 1 ∧
        onlyAfter HandleEffect.recv HandleEffect.closeLocal
          (handleRun (HandleState.init flag) es).trace = true ∧
        onlyAfter HandleEffect.recv HandleEffect.closeRemote
          (handleRun (HandleState.init flag) es).trace = true) ∧
      (HandleEffect.dial false ∈ (handleRun (HandleState.init flag) es).trace →
        (handleRun (HandleState.init flag) es).trace.count
          (HandleEffect.spawn TransferId.first) = 0 ∧
        (handleRun (HandleState.init flag) es).trace.count
          (HandleEffect.spawn TransferId.second) = 0 ∧
        (handleRun (HandleState.init flag) es).trace.count HandleEffect.closeLocal = 0 ∧
        (handleRun (HandleState.init flag) es).trace.count HandleEffect.recv = 0) := by
  have h := HandleInv.run flag es
  generalize handleRun (HandleState.init flag) es = s at hret h
  refine ⟨?_, h.flag_eq, ?_, ?_⟩
  · rw [h.closeRemote_eq, hret]; rfl
  · intro hm
    have hd := h.dialed_of_mem true hm
    refine ⟨?_, ?_, h.order_local, h.order_remote (by rw [hd]; rfl)⟩
    · rw [h.closeLocal_eq, hret, hd]; rfl
    · rw [h.recv_eq, hret, hd]; rfl
  · intro hm
    have hd := h.dialed_of_mem false hm
    have h3 := h.first_ok
    have h4 := h.second_ok
    rw [hret, hd] at h3 h4
    refine ⟨?_, ?_, ?_, ?_⟩
    · rw [h.spawn_first, h3]; rfl
    · rw [h.spawn_second, h4]; rfl
    · rw [h.closeLocal_eq, hret, hd]; rfl
    · rw [h.recv_eq, hret, hd]; rfl

/-- Witness of C4: a run of `handle` with a successful dial, and one with a
failed dial. -/
theorem handle_closes_each_connection_once_witness :
    (handleRun (HandleState.init ConnectedFlag.connected) relaySchedule).handle =
        HandlePc.returned ∧
      HandleEffect.dial true ∈
        (handleRun (HandleState.init ConnectedFlag.connected) relaySchedule).trace ∧
      (handleRun (HandleState.init ConnectedFlag.connected) relaySchedule).trace.count
        HandleEffect.closeLocal = 1 ∧
      (handleRun (HandleState.init ConnectedFlag.connected) failedDialSchedule).handle =
        HandlePc.returned ∧
      HandleEffect.dial false ∈
        (handleRun (HandleState.init ConnectedFlag.connected) failedDialSchedule).trace ∧
      (handleRun (HandleState.init ConnectedFlag.connected) failedDialSchedule).trace.count
        HandleEffect.closeLocal = 0 :=
  ⟨by decide, by decide,
    ((handle_closes_each_connection_once ConnectedFlag.connected relaySchedule
      (by decide)).2.2.1 (by decide)).1,
    by decide, by decide,
    ((handle_closes_each_connection_once ConnectedFlag.connected failedDialSchedule
      (by decide)).2.2.2 (by decide)).2.2.1⟩

theorem HandleInv.send_counts {flag : ConnectedFlag} {s : HandleState} (h : HandleInv flag s)
    (i : TransferId) :
    s.trace.count (HandleEffect.send i) ≤ 1 ∧
      s.trace.count (HandleEffect.send i) ≤
        s.trace.count (HandleEffect.copyEnd i true) +
          s.trace.count (HandleEffect.copyEnd i false) ∧
      (s.transfer i = TransferPc.finished → s.trace.count (HandleEffect.send i) = 1) := by
  cases i
  · have h1 := h.send_first
    have h2 := h.copy_first
    rw [h1, h2]
    cases hf : s.first <;> simp [HandleState.transfer, TransferPc.sent, TransferPc.copied, hf]
  · have h1 := h.send_second
    have h2 := h.copy_second
    rw [h1, h2]
    cases hf : s.second <;> simp [HandleState.transfer, TransferPc.sent, TransferPc.copied, hf]

/-- C5: in every state `s` of every run of `handle` with its two transfers: a
copy that ends, with EOF or with an error, is followed by the write to `quit`; each
transfer writes at most once, only after its copy has ended, and has written once
when it has ended; `handle` receives at most once and `quit` never holds more than
its capacity of 1; a transfer that cannot write finds `handle` at its receive,
which can happen and makes room for the write; every action brings the system
closer to its end; and when no action is possible after a successful dial, both
writes have completed and `handle` has received once and returned. -/
theorem relay_completion_signal (flag : ConnectedFlag) (es : List HandleEvent)
    (s : HandleState) (hs : s = handleRun (HandleState.init flag) es) (i : TransferId)
    (failed ok : Bool) :
    (s.transfer i = TransferPc.copying →
        handleEnabled s (HandleEvent.transfer i failed) = true ∧
        (handleStep s (HandleEvent.transfer i failed)).transfer i = TransferPc.send) ∧
      s.trace.count (HandleEffect.send i) ≤ 1 ∧
      s.trace.count (HandleEffect.send i) ≤
        s.trace.count (HandleEffect.copyEnd i true) +
          s.trace.count (HandleEffect.copyEnd i false) ∧
      (s.transfer i = TransferPc.finished → s.trace.count (HandleEffect.send i) = 1) ∧
      s.trace.count HandleEffect.recv ≤ 1 ∧
      s.quit ≤ quitCapacity ∧
      (s.transfer i = TransferPc.send →
        handleEnabled s (HandleEvent.transfer i failed) = false →
        s.handle = HandlePc.recvQuit ∧ handleEnabled s (HandleEvent.handle ok) = true ∧
        (handleStep s (HandleEvent.handle ok)).transfer i = TransferPc.send ∧
        handleEnabled (handleStep s (HandleEvent.handle ok))
          (HandleEvent.transfer i failed) = true) ∧
      (∀ e : HandleEvent, handleEnabled s e = true →
        (handleStep s e).remaining < s.remaining) ∧
      (handleTerminal s → HandleEffect.dial true ∈ s.trace →
        s.handle = HandlePc.returned ∧
        s.trace.count (HandleEffect.send TransferId.first) = 1 ∧
        s.trace.count (HandleEffect.send TransferId.second) = 1 ∧
        s.trace.count HandleEffect.recv = 1) := by
  have h : HandleInv flag s := hs ▸ HandleInv.run flag es
  clear hs
  have hc := h.send_counts i
  refine ⟨?_, hc.1, hc.2.1, hc.2.2, ?_, h.quit_le, ?_, ?_, ?_⟩
  · intro hcopy
    have hen : handleEnabled s (HandleEvent.transfer i failed) = true := by
      simp [handleEnabled, hcopy]
    refine ⟨hen, ?_⟩
    cases i <;>
      simp_all [handleStep, transferStep, HandleState.transfer, HandleState.setTransfer,
        HandleState.emit]
  · rw [h.recv_eq]
    cases s.handle.received s.dialed <;> simp
  · intro hsend hb
    exact h.blocked i failed ok hsend hb
  · intro e hen
    exact h.remaining_lt e hen
  · intro ht hm
    have hd := h.dialed_of_mem true hm
    have hterm := h.terminal ht
    have hfin := hterm.2 (by rw [hd]; rfl)
    refine ⟨hterm.1, ?_, ?_, ?_⟩
    · rw [h.send_first, hfin.1]; rfl
    · rw [h.send_second, hfin.2]; rfl
    · rw [h.recv_eq, hterm.1, hd]; rfl

/-- At the end of `relaySchedule` no action is possible. -/
theorem relaySchedule_terminal :
    handleTerminal (handleRun (HandleState.init ConnectedFlag.connected) relaySchedule) := by
  intro e
  cases e with
  | handle ok => cases ok <;> decide
  | transfer i failed => cases i <;> cases failed <;> decide

/-- Witness of C5: a run in which the second transfer ends its copy while the
write of the first is still in the buffer. -/
theorem relay_completion_signal_witness :
    handleTerminal (handleRun (HandleState.init ConnectedFlag.connected) relaySchedule) ∧
      HandleEffect.dial true ∈
        (handleRun (HandleState.init ConnectedFlag.connected) relaySchedule).trace ∧
      (handleRun (HandleState.init ConnectedFlag.connected) relaySchedule).trace.count
        (HandleEffect.send TransferId.first) = 1 ∧
      (handleRun (HandleState.init ConnectedFlag.connected) relaySchedule).trace.count
        (HandleEffect.send TransferId.second) = 1 :=
  ⟨relaySchedule_terminal, by decide,
    ((relay_completion_signal ConnectedFlag.connected relaySchedule _ rfl TransferId.first
      false true).2.2.2.2.2.2.2.2 relaySchedule_terminal
      (by decide)).2.1,
    ((relay_completion_signal ConnectedFlag.connected relaySchedule _ rfl TransferId.first
      false true).2.2.2.2.2.2.2.2 relaySchedule_terminal
      (by decide)).2.2.1⟩

end SSH

/-! ## The build sequence -/

namespace Build

/-- C9: in every call of `Run` that reaches the build step, `solveBuild` is
invoked once or twice, twice exactly when `IsTransientError` holds of the error of
the first invocation, and `Run` returns `GetErrorMessage` of the error of the last
invocation. -/
theorem Run_retries_once {Client Opt : Type} (env : Env Client Opt) (a : RunArgs)
    (p : Prepared Client Opt) (hp : prepare env a = Except.ok p) :
    ((Run env a).solveBuildCalls = 1 ∨ (Run env a).solveBuildCalls = 2) ∧
      ((Run env a).solveBuildCalls = 2 ↔
        env.IsTransientError (env.solveBuild 0 p.buildkitClient p.opt a.progress) = true) ∧
      (env.IsTransientError none = false →
        ((Run env a).solveBuildCalls = 2 ↔
          ∃ e : GoError, env.solveBuild 0 p.buildkitClient p.opt a.progress = some e ∧
            env.IsTransientError (some e) = true)) ∧
      (∃ k : Nat, lastSolveBuild (Run env a).effects = some k ∧
        k + 1 = (Run env a).solveBuildCalls ∧
        (Run env a).err =
          env.GetErrorMessage (env.solveBuild k p.buildkitClient p.opt a.progress) p.tag) := by
  have hd : ∀ f : Option String, (deferred f).countP Effect.isSolveBuild = 0 := by
    intro f; cases f <;> simp [deferred, Effect.isSolveBuild]
  cases ht : env.IsTransientError (env.solveBuild 0 p.buildkitClient p.opt a.progress)
  · have hrun : Run env a =
        { err := env.GetErrorMessage (env.solveBuild 0 p.buildkitClient p.opt a.progress) p.tag
          effects := [Effect.solveBuild 0] ++ deferred p.deferredRemove } := by
      simp [Run, hp, solve, ht]
    have hcalls : (Run env a).solveBuildCalls = 1 := by
      rw [hrun]; simp [RunResult.solveBuildCalls, List.countP_append, hd, Effect.isSolveBuild]
    refine ⟨Or.inl hcalls, ?_, ?_, 0, ?_, ?_, ?_⟩
    · rw [hcalls]; simp
    · intro hnone
      rw [hcalls]
      constructor
      · intro h; omega
      · rintro ⟨e, he, het⟩
        rw [he, het] at ht
        cases ht
    · rw [hrun]; cases p.deferredRemove <;> simp [deferred, lastSolveBuild]
    · rw [hcalls]
    · rw [hrun]
  · have hrun : Run env a =
        { err := env.GetErrorMessage (env.solveBuild 1 p.buildkitClient p.opt a.progress) p.tag
          effects := [Effect.solveBuild 0, Effect.solveBuild 1,
            Effect.trackBuildTransientError env.ContextBuildkit
              (env.solveBuild 1 p.buildkitClient p.opt a.progress).isNone] ++
            deferred p.deferredRemove } := by
      simp [Run, hp, solve, ht]
    have hcalls : (Run env a).solveBuildCalls = 2 := by
      rw [hrun]; simp [RunResult.solveBuildCalls, List.countP_append, hd, Effect.isSolveBuild,
        List.countP_cons]
    refine ⟨Or.inr hcalls, ?_, ?_, 1, ?_, ?_, ?_⟩
    · rw [hcalls]; simp
    · intro hnone
      rw [hcalls]
      constructor
      · intro _
        cases hs : env.solveBuild 0 p.buildkitClient p.opt a.progress with
        | none => rw [hs, hnone] at ht; cases ht
        | some e => exact ⟨e, rfl, by rw [hs] at ht; exact ht⟩
      · intro _; rfl
    · rw [hrun]; cases p.deferredRemove <;> simp [deferred, lastSolveBuild]
    · rw [hcalls]
    · rw [hrun]

/-- Witness of C9: the first build fails with a transient error, the retry
succeeds, and `Run` returns nil. -/
theorem Run_retries_once_witness :
    prepare retryEnv (argsWithTag "okteto.dev/app") =
        Except.ok { buildkitClient := (), deferredRemove := none, tag := "okteto.dev/app",
                    opt := () } ∧
      (Run retryEnv (argsWithTag "okteto.dev/app")).solveBuildCalls = 2 ∧
      (∃ e : GoError, retryEnv.solveBuild 0 () () "tty" = some e ∧
        retryEnv.IsTransientError (some e) = true) ∧
      (Run retryEnv (argsWithTag "okteto.dev/app")).err = none :=
  ⟨rfl,
    (Run_retries_once retryEnv (argsWithTag "okteto.dev/app")
      { buildkitClient := (), deferredRemove := none, tag := "okteto.dev/app", opt := () }
      rfl).2.1.2 (by decide),
    ((Run_retries_once retryEnv (argsWithTag "okteto.dev/app")
      { buildkitClient := (), deferredRemove := none, tag := "okteto.dev/app", opt := () }
      rfl).2.2.1 (by decide)).1 (by decide),
    by decide⟩

/-- C10 as stated fails: without a buildkit client `Run` returns the error of
`getBuildkitClient`, not the error of `validateImage`, for the non-empty tag
`okteto.dev/a/b`. -/
theorem Run_validation_counterexample :
    (argsWithTag "okteto.dev/a/b").tag ≠ "" ∧
      validateImage noClientEnv "okteto.dev/a/b" =
        some (GoError.userError
          (GoError.plain "Can not use 'okteto.dev/a/b' as the image tag.")
          (registryHint "okteto.dev")) ∧
      (Run noClientEnv (argsWithTag "okteto.dev/a/b")).err =
        some (GoError.plain "buildkit is not available") ∧
      (Run noClientEnv (argsWithTag "okteto.dev/a/b")).err ≠
        validateImage noClientEnv "okteto.dev/a/b" := by
  decide

/-- C10, amended: `validateImage` returns an error exactly for a tag of the okteto
registry that does not contain exactly one `/`; the error is a `UserError` whose
hint names `GlobalRegistry` when `IsGlobalRegistry` holds of the tag and
`DevRegistry` otherwise; for a non-empty tag with such an error `Run` never invokes
`solveBuild`, and returns that error whenever `getBuildkitClient` and, for a
non-empty `dockerFile`, `GetDockerfile` have succeeded; for an empty tag `Run` does
not depend on the validation; when `getBuildkitClient` fails, or `GetDockerfile`
fails for a non-empty `dockerFile`, `Run` returns that error, with no build. -/
theorem validateImage_before_build {Client Opt : Type} (env : Env Client Opt) (a : RunArgs)
    (imageTag : String) :
    ((validateImage env imageTag).isSome = true ↔
        (env.IsOktetoRegistry imageTag = true ∧ countSlash imageTag ≠ 1)) ∧
      (∀ err : GoError, validateImage env imageTag = some err →
        err = GoError.userError
          (GoError.plain ("Can not use '" ++ imageTag ++ "' as the image tag."))
          (registryHint
            (if env.IsGlobalRegistry imageTag then env.GlobalRegistry else env.DevRegistry))) ∧
      (a.tag ≠ "" → (validateImage env a.tag).isSome = true →
        (Run env a).solveBuildCalls = 0 ∧
        (∀ c : Client, env.getBuildkitClient = Except.ok c →
          (a.dockerFile = "" ∨ ∃ f : String, env.GetDockerfile a.dockerFile = Except.ok f) →
          (Run env a).err = validateImage env a.tag)) ∧
      (a.tag = "" →
        Run env a = Run { env with IsOktetoRegistry := fun _ => false } a) ∧
      (∀ e : GoError, env.getBuildkitClient = Except.error e →
        (Run env a).err = some e ∧ (Run env a).effects = []) ∧
      (∀ (c : Client) (e : GoError), env.getBuildkitClient = Except.ok c →
        a.dockerFile ≠ "" → env.GetDockerfile a.dockerFile = Except.error e →
        (Run env a).err = some e ∧ (Run env a).effects = []) := by
  refine ⟨?_, ?_, ?_, ?_, ?_, ?_⟩
  · unfold validateImage
    by_cases h : (env.IsOktetoRegistry imageTag && countSlash imageTag != 1) = true
    · rw [if_pos h]
      simpa using h
    · rw [if_neg h]
      simpa using h
  · intro err herr
    unfold validateImage at herr
    split at herr
    · simpa [registryHint] using herr.symm
    · cases herr
  · intro htag hval
    obtain ⟨err, herr⟩ := Option.isSome_iff_exists.1 hval
    have htag' : (a.tag != "") = true := by simpa using htag
    constructor
    · unfold Run prepare
      cases env.getBuildkitClient with
      | error e => simp [RunResult.solveBuildCalls]
      | ok c =>
        by_cases hd : (a.dockerFile != "") = true
        · cases hg : env.GetDockerfile a.dockerFile with
          | error e => simp [hd, hg, RunResult.solveBuildCalls]
          | ok f =>
            simp [hd, hg, htag', herr, RunResult.solveBuildCalls, deferred,
              Effect.isSolveBuild]
        · simp [hd, htag', herr, RunResult.solveBuildCalls, deferred]
    · intro c hc hdock
      unfold Run prepare
      rw [hc]
      by_cases hd : (a.dockerFile != "") = true
      · rcases hdock with h0 | ⟨f, hf⟩
        · simp [h0] at hd
        · simp [hd, hf, htag', herr]
      · simp [hd, htag', herr]
  · intro htag
    have hp : prepare { env with IsOktetoRegistry := fun _ => false } a = prepare env a := by
      unfold prepare
      simp [htag]
    unfold Run
    rw [hp]
    rfl
  · intro e he
    simp [Run, prepare, he]
  · intro c e hc hd he
    have hd' : (a.dockerFile != "") = true := by simpa using hd
    simp [Run, prepare, hc, hd', he]

/-- Witness of C10: the tag `okteto.dev/a/b` fails the validation and `Run`
returns the error without a build. -/
theorem validateImage_before_build_witness :
    (argsWithTag "okteto.dev/a/b").tag ≠ "" ∧
      (validateImage retryEnv (argsWithTag "okteto.dev/a/b").tag).isSome = true ∧
      (Run retryEnv (argsWithTag "okteto.dev/a/b")).solveBuildCalls = 0 ∧
      (Run retryEnv (argsWithTag "okteto.dev/a/b")).err =
        validateImage retryEnv (argsWithTag "okteto.dev/a/b").tag ∧
      noClientEnv.getBuildkitClient = Except.error (GoError.plain "buildkit is not available") ∧
      (Run noClientEnv (argsWithTag "okteto.dev/a/b")).err =
        some (GoError.plain "buildkit is not available") :=
  ⟨by decide, by decide,
    ((validateImage_before_build retryEnv (argsWithTag "okteto.dev/a/b")
      "okteto.dev/a/b").2.2.1 (by decide) (by decide)).1,
    ((validateImage_before_build retryEnv (argsWithTag "okteto.dev/a/b")
      "okteto.dev/a/b").2.2.1 (by decide) (by decide)).2 () rfl (Or.inl rfl),
    rfl,
    ((validateImage_before_build noClientEnv (argsWithTag "okteto.dev/a/b")
      "okteto.dev/a/b").2.2.2.2.1 (GoError.plain "buildkit is not available") rfl).1⟩

end Build

end Okteto
